import Mathlib

/-!
# Verification of the kickr-to-gamepad Dircon codec and FTMS telemetry decoder

Shallow embedding of `src/scripts/dircon_packet.py` (the `DirconPacket`
class: `parse`, `encode`, `decode_indoor_bike_data`, and its module-level
constants) and of the field table and `decode_indoor_bike_data` function of
`src/scripts/ble-vjoy.py`.

Byte strings (`bytes`/`bytearray`) are modelled as `List Nat`; Python's
unbounded integers are `Nat` where the source only ever holds non-negative
values and `Int` where a caller-supplied value may be negative (the
`last_seq_number` argument and the `SequenceNumber` field, which `encode`
assigns from it unmasked).  Python floats appearing as resolution
multipliers are modelled as `Rat`; every comparison proved here multiplies
the same raw integers by the same literals on both sides, so the
float/rational gap does not affect any stated property.  `bytearray.append`
raises `ValueError` outside `0..255`; the appends whose argument is not
syntactically masked or a `bytes` element are modelled fallibly via
`Option`.
-/


namespace KickrToGamepad

/-! ## Constants from `dircon_packet.py` -/

def INDOOR_BIKE_DATA_CHAR_UUID : Nat := 0x2AD2

def DPKT_MESSAGE_HEADER_LENGTH : Nat := 6

def DPKT_MSGID_ERROR : Nat := 0xFF
def DPKT_MSGID_DISCOVER_SERVICES : Nat := 0x01
def DPKT_MSGID_DISCOVER_CHARACTERISTICS : Nat := 0x02
def DPKT_MSGID_READ_CHARACTERISTIC : Nat := 0x03
def DPKT_MSGID_WRITE_CHARACTERISTIC : Nat := 0x04
def DPKT_MSGID_ENABLE_CHARACTERISTIC_NOTIFICATIONS : Nat := 0x05
def DPKT_MSGID_UNSOLICITED_CHARACTERISTIC_NOTIFICATION : Nat := 0x06

def DPKT_RESPCODE_SUCCESS_REQUEST : Nat := 0x00

def DPKT_PARSE_ERROR : Int := -20
def DPKT_PARSE_WAIT : Int := -3

def DPKT_POS_SH8 : Nat := 2
def DPKT_POS_SH0 : Nat := 3

def BASE_UUID : List Nat :=
  [0x00, 0x00, 0x18, 0x26, 0x00, 0x00, 0x10, 0x00,
   0x80, 0x00, 0x00, 0x80, 0x5F, 0x9B, 0x34, 0xFB]

/-! ## Field definitions (telemetry tables)

One entry of the `FIELD_DEFS` lists.  `short` is `none` when the source
dictionary has no `"short"` key. -/

structure FieldDef where
  name : String
  size : Nat
  type : String
  resolution : Rat
  present : Nat → Bool
  short : Option String
deriving Inhabited

/-- The `FIELD_DEFS` table of `dircon_packet.py` (lines 49-182). -/
def Dircon.FIELD_DEFS : List FieldDef :=
  [ { name := "Flags", size := 2, type := "Uint16", resolution := 1,
      present := fun _ => true, short := none },
    { name := "InstantaneousSpeed", size := 2, type := "Uint16", resolution := 0.01,
      present := fun flags => decide (((flags >>> 0) &&& 1) = 0), short := some "speed" },
    { name := "AverageSpeed", size := 2, type := "Uint16", resolution := 0.01,
      present := fun flags => decide (((flags >>> 1) &&& 1) = 1), short := none },
    { name := "InstantaneousCadence", size := 2, type := "Uint16", resolution := 0.5,
      present := fun flags => decide (((flags >>> 2) &&& 1) = 1), short := some "cadence" },
    { name := "AverageCadence", size := 2, type := "Uint16", resolution := 0.5,
      present := fun flags => decide (((flags >>> 3) &&& 1) = 1), short := none },
    { name := "TotalDistance", size := 3, type := "Uint24", resolution := 1,
      present := fun flags => decide (((flags >>> 4) &&& 1) = 1), short := some "distance" },
    { name := "ResistanceLevel", size := 2, type := "Uint16", resolution := 1,
      present := fun flags => decide (((flags >>> 5) &&& 1) = 1), short := none },
    { name := "InstantaneousPower", size := 2, type := "Uint16", resolution := 1,
      present := fun flags => decide (((flags >>> 6) &&& 1) = 1), short := some "power" },
    { name := "AveragePower", size := 2, type := "Uint16", resolution := 1,
      present := fun flags => decide (((flags >>> 7) &&& 1) = 1), short := none },
    { name := "TotalEnergy", size := 2, type := "Int16", resolution := 1,
      present := fun flags => decide (((flags >>> 8) &&& 1) = 1), short := none },
    { name := "EnergyPerHour", size := 2, type := "Int16", resolution := 1,
      present := fun flags => decide (((flags >>> 9) &&& 1) = 1), short := none },
    { name := "EnergyPerMinute", size := 1, type := "Uint8", resolution := 1,
      present := fun flags => decide (((flags >>> 10) &&& 1) = 1), short := none },
    { name := "HeartRate", size := 1, type := "Uint8", resolution := 1,
      present := fun flags => decide (((flags >>> 11) &&& 1) = 1), short := some "heartRate" },
    { name := "MetabolicEquivalent", size := 1, type := "Uint8", resolution := 1,
      present := fun flags => decide (((flags >>> 12) &&& 1) = 1), short := none },
    { name := "ElapsedTime", size := 2, type := "Uint16", resolution := 1,
      present := fun flags => decide (((flags >>> 13) &&& 1) = 1), short := none },
    { name := "RemainingTime", size := 2, type := "Uint16", resolution := 1,
      present := fun flags => decide (((flags >>> 14) &&& 1) = 1), short := none } ]

/-- The `FIELD_DEFS` table of `ble-vjoy.py` (lines 98-231), whose presence
predicates are the named functions `speed_present` .. `remaining_time_present`
of lines 41-91.  The three expanded-energy fields all share
`expanded_energy_present` (bit 8), and the last four fields sit at bits
9-12 instead of 11-14. -/
def BleVjoy.FIELD_DEFS : List FieldDef :=
  [ { name := "Flags", size := 2, type := "Uint16", resolution := 1,
      present := fun _ => true, short := none },
    { name := "InstantaneousSpeed", size := 2, type := "Uint16", resolution := 0.01,
      present := fun flags => decide (((flags >>> 0) &&& 1) = 0), short := some "speed" },
    { name := "AverageSpeed", size := 2, type := "Uint16", resolution := 0.01,
      present := fun flags => decide (((flags >>> 1) &&& 1) = 1), short := none },
    { name := "InstantaneousCadence", size := 2, type := "Uint16", resolution := 0.5,
      present := fun flags => decide (((flags >>> 2) &&& 1) = 1), short := some "cadence" },
    { name := "AverageCadence", size := 2, type := "Uint16", resolution := 0.5,
      present := fun flags => decide (((flags >>> 3) &&& 1) = 1), short := none },
    { name := "TotalDistance", size := 3, type := "Uint24", resolution := 1,
      present := fun flags => decide (((flags >>> 4) &&& 1) = 1), short := some "distance" },
    { name := "ResistanceLevel", size := 2, type := "Uint16", resolution := 1,
      present := fun flags => decide (((flags >>> 5) &&& 1) = 1), short := none },
    { name := "InstantaneousPower", size := 2, type := "Uint16", resolution := 1,
      present := fun flags => decide (((flags >>> 6) &&& 1) = 1), short := some "power" },
    { name := "AveragePower", size := 2, type := "Uint16", resolution := 1,
      present := fun flags => decide (((flags >>> 7) &&& 1) = 1), short := none },
    { name := "TotalEnergy", size := 2, type := "Int16", resolution := 1,
      present := fun flags => decide (((flags >>> 8) &&& 1) = 1), short := none },
    { name := "EnergyPerHour", size := 2, type := "Int16", resolution := 1,
      present := fun flags => decide (((flags >>> 8) &&& 1) = 1), short := none },
    { name := "EnergyPerMinute", size := 1, type := "Uint8", resolution := 1,
      present := fun flags => decide (((flags >>> 8) &&& 1) = 1), short := none },
    { name := "HeartRate", size := 1, type := "Uint8", resolution := 1,
      present := fun flags => decide (((flags >>> 9) &&& 1) = 1), short := some "heartRate" },
    { name := "MetabolicEquivalent", size := 1, type := "Uint8", resolution := 1,
      present := fun flags => decide (((flags >>> 10) &&& 1) = 1), short := none },
    { name := "ElapsedTime", size := 2, type := "Uint16", resolution := 1,
      present := fun flags => decide (((flags >>> 11) &&& 1) = 1), short := none },
    { name := "RemainingTime", size := 2, type := "Uint16", resolution := 1,
      present := fun flags => decide (((flags >>> 12) &&& 1) = 1), short := none } ]

/-! ## The telemetry decoder

`DirconPacket.decode_indoor_bike_data` (dircon_packet.py lines 204-240)
and the module-level `decode_indoor_bike_data` of ble-vjoy.py
(lines 234-270) are textually identical except for which `FIELD_DEFS`
table is in scope; they are embedded once, parameterised by the table. -/

/-- `struct.unpack_from` for the four type tags used by the tables, plus the
`Uint24` arm written out by hand in the source.  The source's final `else`
arm sets `val = None` and would raise on the subsequent multiplication; it is
unreachable for both tables (every `type` is one of the four tags). -/
def readVal (t : String) (data : List Nat) (offset : Nat) : Int :=
  if t = "Uint16" then (data.getD offset 0 + (data.getD (offset + 1) 0) * 256 : Nat)
  else if t = "Int16" then
    let u : Nat := data.getD offset 0 + (data.getD (offset + 1) 0) * 256
    (u : Int) - (if 32768 ≤ u then 65536 else 0)
  else if t = "Uint8" then (data.getD offset 0 : Nat)
  else if t = "Uint24" then
    (data.getD offset 0 + ((data.getD (offset + 1) 0) <<< 8) +
      ((data.getD (offset + 2) 0) <<< 16) : Nat)
  else 0

/-- The key under which a decoded field is stored:
`field.get("short", field["name"])`. -/
def fieldKey (f : FieldDef) : String := f.short.getD f.name

/-- The `for field in FIELD_DEFS[1:]` loop: walk the remaining field
definitions, stopping (`break`) as soon as the next field's declared size
overruns the data, decoding each present field at the running offset, and
advancing the offset by the declared size whether or not the field was
present. -/
def decodeFields (data : List Nat) (flags : Nat) : List FieldDef → Nat → List (String × Rat)
  | [], _ => []
  | f :: rest, offset =>
    if data.length < offset + f.size then []
    else
      (if f.present flags then [(fieldKey f, (readVal f.type data offset : Rat) * f.resolution)]
       else []) ++ decodeFields data flags rest (offset + f.size)

/-- The little-endian 16-bit `Flags` read at the front of the payload. -/
def flagsOf (data : List Nat) : Nat := data.getD 0 0 + (data.getD 1 0) * 256

/-- `decode_indoor_bike_data`, parameterised by the field table.  Returns
`none` (`None`) when the payload cannot even hold `Flags`, else the
insertion-ordered key/value mapping as an association list. -/
def decode_with (defs : List FieldDef) (data : List Nat) : Option (List (String × Rat)) :=
  if data.length < 2 then none
  else
    let flags := flagsOf data
    some (("Flags", (flags : Rat)) :: decodeFields data flags (defs.drop 1) 2)

/-- `DirconPacket.decode_indoor_bike_data` (dircon_packet.py). -/
def Dircon.decode_indoor_bike_data (data : List Nat) : Option (List (String × Rat)) :=
  decode_with Dircon.FIELD_DEFS data

/-- `decode_indoor_bike_data` (ble-vjoy.py). -/
def BleVjoy.decode_indoor_bike_data (data : List Nat) : Option (List (String × Rat)) :=
  decode_with BleVjoy.FIELD_DEFS data

/-! ## The DirconPacket state -/

structure DirconPacket where
  MessageVersion : Nat
  Identifier : Nat
  SequenceNumber : Int
  ResponseCode : Nat
  Length : Nat
  uuid : Nat
  uuids : List Nat
  additional_data : List Nat
  isRequest : Bool
  last_crank_revs : Nat
  last_crank_time : Nat
  last_wheel_revs : Nat
  last_wheel_time : Nat
deriving DecidableEq

/-- `DirconPacket.__init__`. -/
def DirconPacket.init : DirconPacket :=
  { MessageVersion := 1
    Identifier := DPKT_MSGID_ERROR
    SequenceNumber := 0
    ResponseCode := DPKT_RESPCODE_SUCCESS_REQUEST
    Length := 0
    uuid := 0
    uuids := []
    additional_data := []
    isRequest := false
    last_crank_revs := 0
    last_crank_time := 0
    last_wheel_revs := 0
    last_wheel_time := 0 }

/-! ## Parsing helpers -/

/-- Python slice `l[a:b]` for `0 ≤ a ≤ b` (clamped at both ends, empty when
`b ≤ a`, as in Python). -/
def pySlice (l : List Nat) (a b : Nat) : List Nat := (l.drop a).take (b - a)

/-- `(block[DPKT_POS_SH8] << 8) | block[DPKT_POS_SH0]`: contraction of a
128-bit UUID block to its 16-bit short code, as inlined at every UUID read
in `parse`. -/
def contract16 (block : List Nat) : Nat :=
  ((block.getD DPKT_POS_SH8 0) <<< 8) ||| block.getD DPKT_POS_SH0 0

/-- `block = bytearray(BASE_UUID); block[DPKT_POS_SH8] = (u >> 8) & 0xFF;
block[DPKT_POS_SH0] = u & 0xFF`: expansion of a 16-bit short code into a
128-bit UUID block, as inlined at every UUID write in `encode`. -/
def expand (u : Nat) : List Nat :=
  (BASE_UUID.set DPKT_POS_SH8 ((u >>> 8) &&& 0xFF)).set DPKT_POS_SH0 (u &&& 0xFF)

/-- The request-detection expression
`last_seq_number <= 0 or last_seq_number != self.SequenceNumber`,
repeated verbatim at the four direction-inference sites of `parse`. -/
def seqIsRequest (last_seq_number seq : Int) : Bool :=
  decide (last_seq_number ≤ 0) || decide (last_seq_number ≠ seq)

/-- The DiscoverServices-response loop of `parse` (lines 297-304): read
`count` 16-byte blocks starting at `offset`, contracting each to a short
code. -/
def svcUuidsLoop (buf : List Nat) : Nat → Nat → List Nat
  | 0, _ => []
  | count + 1, offset =>
    contract16 (pySlice buf offset (offset + 16)) :: svcUuidsLoop buf count (offset + 16)

/-- The DiscoverCharacteristics-response loop of `parse` (lines 317-326):
read `count` 17-byte groups starting at `offset`, each a 16-byte UUID block
followed by one property-flags byte; returns the collected short codes and
the concatenated property bytes. -/
def charUuidsDataLoop (buf : List Nat) : Nat → Nat → List Nat × List Nat
  | 0, _ => ([], [])
  | count + 1, offset =>
    let u := contract16 (pySlice buf offset (offset + 16))
    let b := pySlice buf (offset + 16) (offset + 17)
    let rest := charUuidsDataLoop buf count (offset + 17)
    (u :: rest.1, b ++ rest.2)

/-- `DirconPacket.parse` (dircon_packet.py lines 272-379).  The method
mutates `self` and returns an `int` code; it is embedded as a function from
the prior packet state, the buffer and `last_seq_number` to the returned
code paired with the new state. -/
def DirconPacket.parse (p : DirconPacket) (buf : List Nat) (last_seq_number : Int) :
    Int × DirconPacket :=
  if buf.length < DPKT_MESSAGE_HEADER_LENGTH then (DPKT_PARSE_WAIT, p)
  else
    let p := { p with
      MessageVersion := buf.getD 0 0
      Identifier := buf.getD 1 0
      SequenceNumber := (buf.getD 2 0 : Nat)
      ResponseCode := buf.getD 3 0
      Length := ((buf.getD 4 0) <<< 8) ||| buf.getD 5 0
      isRequest := false }
    let total_length := DPKT_MESSAGE_HEADER_LENGTH + p.Length
    if buf.length < total_length then (DPKT_PARSE_WAIT, p)
    else if p.ResponseCode ≠ DPKT_RESPCODE_SUCCESS_REQUEST then ((total_length : Nat), p)
    else if p.Identifier = DPKT_MSGID_DISCOVER_SERVICES then
      if p.Length = 0 then
        ((DPKT_MESSAGE_HEADER_LENGTH : Nat),
          { p with isRequest := seqIsRequest last_seq_number p.SequenceNumber })
      else if p.Length % 16 = 0 then
        ((total_length : Nat),
          { p with uuids := svcUuidsLoop buf (p.Length / 16) DPKT_MESSAGE_HEADER_LENGTH })
      else (DPKT_PARSE_ERROR - (total_length : Nat), p)
    else if p.Identifier = DPKT_MSGID_DISCOVER_CHARACTERISTICS then
      if 16 ≤ p.Length then
        let offset := DPKT_MESSAGE_HEADER_LENGTH
        let p := { p with uuid := contract16 (pySlice buf offset (offset + 16)) }
        if p.Length = 16 then
          ((total_length : Nat),
            { p with isRequest := seqIsRequest last_seq_number p.SequenceNumber })
        else if (p.Length - 16) % 17 = 0 then
          let r := charUuidsDataLoop buf ((p.Length - 16) / 17) (offset + 16)
          ((total_length : Nat), { p with uuids := r.1, additional_data := r.2 })
        else (DPKT_PARSE_ERROR - (total_length : Nat), p)
      else (DPKT_PARSE_ERROR - (total_length : Nat), p)
    else if p.Identifier = DPKT_MSGID_READ_CHARACTERISTIC then
      if 16 ≤ p.Length then
        let offset := DPKT_MESSAGE_HEADER_LENGTH
        let p := { p with uuid := contract16 (pySlice buf offset (offset + 16)) }
        let p :=
          if p.Length = 16 then
            { p with isRequest := seqIsRequest last_seq_number p.SequenceNumber
                     additional_data := pySlice buf (offset + 4) total_length }
          else p
        ((total_length : Nat), p)
      else (DPKT_PARSE_ERROR - (total_length : Nat), p)
    else if p.Identifier = DPKT_MSGID_WRITE_CHARACTERISTIC then
      if 16 < p.Length then
        let offset := DPKT_MESSAGE_HEADER_LENGTH
        ((total_length : Nat),
          { p with uuid := contract16 (pySlice buf offset (offset + 16))
                   additional_data := pySlice buf (offset + 16) total_length
                   isRequest := seqIsRequest last_seq_number p.SequenceNumber })
      else (DPKT_PARSE_ERROR - (total_length : Nat), p)
    else if p.Identifier = DPKT_MSGID_ENABLE_CHARACTERISTIC_NOTIFICATIONS then
      if p.Length = 16 ∨ p.Length = 17 then
        let offset := DPKT_MESSAGE_HEADER_LENGTH
        let p := { p with uuid := contract16 (pySlice buf offset (offset + 16)) }
        let p :=
          if p.Length = 17 then
            { p with isRequest := true
                     additional_data := pySlice buf (offset + 16) (offset + 17) }
          else p
        ((total_length : Nat), p)
      else (DPKT_PARSE_ERROR - (total_length : Nat), p)
    else if p.Identifier = DPKT_MSGID_UNSOLICITED_CHARACTERISTIC_NOTIFICATION then
      if 16 < p.Length then
        let offset := DPKT_MESSAGE_HEADER_LENGTH
        ((total_length : Nat),
          { p with uuid := contract16 (pySlice buf offset (offset + 16))
                   additional_data := pySlice buf (offset + 16) total_length })
      else (DPKT_PARSE_ERROR - (total_length : Nat), p)
    else (DPKT_PARSE_ERROR - (total_length : Nat), p)

/-! ## Encoding -/

/-- A `bytearray.append` of a value already known non-negative: raises
(`none`) outside `0..255`. -/
def appendByteN (out : List Nat) (v : Nat) : Option (List Nat) :=
  if v < 256 then some (out ++ [v]) else none

/-- A `bytearray.append` of a possibly negative Python int: raises (`none`)
outside `0..255`. -/
def appendByteI (out : List Nat) (v : Int) : Option (List Nat) :=
  if 0 ≤ v ∧ v < 256 then some (out ++ [v.toNat]) else none

/-- The `for i, u in enumerate(self.uuids)` loop of the
DiscoverCharacteristics-response arm of `encode` (lines 419-427): one
17-byte group per short code, the trailing property byte taken positionally
from `additional_data` and defaulting to 0 past its end. -/
def dcGroups : List Nat → List Nat → List Nat
  | [], _ => []
  | u :: rest, ds => expand u ++ [ds.getD 0 0] ++ dcGroups rest (ds.drop 1)

/-- The payload-construction `if`-chain of `encode` (lines 400-446),
returning the computed `Length` and payload bytes.  Run after the
sequence-number assignment, so `p` here carries the updated
`SequenceNumber`/`MessageVersion`. -/
def encodePayload (p : DirconPacket) : Nat × List Nat :=
  if ¬ p.isRequest ∧ p.ResponseCode ≠ DPKT_RESPCODE_SUCCESS_REQUEST then (0, [])
  else if p.Identifier = DPKT_MSGID_DISCOVER_SERVICES then
    if p.isRequest then (0, [])
    else (p.uuids.length * 16, (p.uuids.map expand).flatten)
  else if p.Identifier = DPKT_MSGID_DISCOVER_CHARACTERISTICS ∧ ¬ p.isRequest then
    (16 + p.uuids.length * 17, expand p.uuid ++ dcGroups p.uuids p.additional_data)
  else if ((p.Identifier = DPKT_MSGID_READ_CHARACTERISTIC ∨
            p.Identifier = DPKT_MSGID_DISCOVER_CHARACTERISTICS) ∧ p.isRequest) ∨
          (p.Identifier = DPKT_MSGID_ENABLE_CHARACTERISTIC_NOTIFICATIONS ∧ ¬ p.isRequest) then
    (16, expand p.uuid)
  else if (p.Identifier = DPKT_MSGID_WRITE_CHARACTERISTIC ∨
           p.Identifier = DPKT_MSGID_UNSOLICITED_CHARACTERISTIC_NOTIFICATION) ∨
          (p.Identifier = DPKT_MSGID_READ_CHARACTERISTIC ∧ ¬ p.isRequest) ∨
          (p.Identifier = DPKT_MSGID_ENABLE_CHARACTERISTIC_NOTIFICATIONS ∧ p.isRequest) then
    (16 + p.additional_data.length, expand p.uuid ++ p.additional_data)
  else (0, [])

/-- `DirconPacket.encode` (dircon_packet.py lines 381-451).  Mutates
`SequenceNumber`, `MessageVersion` and `Length`; returns the wire bytes.
The three header appends whose argument is not a literal or masked value
(`Identifier`, `SequenceNumber`, `ResponseCode`) are fallible, as
`bytearray.append` raises outside `0..255`; the payload appends only ever
receive masked values, `BASE_UUID` bytes or elements of the `bytes`-typed
`additional_data`, which are modelled as already in range. -/
def DirconPacket.encode (p0 : DirconPacket) (last_seq_number : Int) :
    Option (List Nat × DirconPacket) :=
  if p0.Identifier = DPKT_MSGID_ERROR then some ([], p0)
  else
    let seq : Int :=
      if p0.isRequest then last_seq_number % 256
      else if p0.Identifier = DPKT_MSGID_UNSOLICITED_CHARACTERISTIC_NOTIFICATION then 0
      else last_seq_number
    let p1 := { p0 with SequenceNumber := seq, MessageVersion := 1 }
    do
      let out ← appendByteN [] p1.MessageVersion
      let out ← appendByteN out p1.Identifier
      let out ← appendByteI out p1.SequenceNumber
      let out ← appendByteN out p1.ResponseCode
      let lp := encodePayload p1
      let p2 := { p1 with Length := lp.1 }
      some (out ++ [(p2.Length >>> 8) &&& 0xFF, p2.Length &&& 0xFF] ++ lp.2, p2)



/-! ## Arithmetic helpers -/

/-- Splitting a 16-bit value into its big-endian byte halves and recombining
them (`(hi << 8) | lo`) is the identity below 65536.  This is the arithmetic
shared by the UUID short-code embedding (template offsets 2/3) and the frame
`length` field. -/
theorem u16_split_combine (L : Nat) (h : L < 65536) :
    (((L >>> 8) &&& 255) <<< 8) ||| (L &&& 255) = L := by
  have h1 : L >>> 8 = L / 256 := by
    rw [Nat.shiftRight_eq_div_pow]
  have h2 : (L / 256) &&& 255 = L / 256 % 256 := Nat.and_pow_two_sub_one_eq_mod _ 8
  have h3 : L &&& 255 = L % 256 := Nat.and_pow_two_sub_one_eq_mod _ 8
  have h4 : L / 256 % 256 = L / 256 := Nat.mod_eq_of_lt (by omega)
  have h5 : (L / 256) <<< 8 = L / 256 * 256 := by
    rw [Nat.shiftLeft_eq]
  rw [h1, h2, h4, h3, h5]
  have h6 := Nat.mul_add_lt_is_or (b := L % 256) (i := 8) (by omega) (L / 256)
  norm_num at h6
  rw [Nat.mul_comm, ← h6]
  omega

/-- `expand` written out on the concrete template. -/
theorem expand_eq (u : Nat) :
    expand u = [0x00, 0x00, (u >>> 8) &&& 0xFF, u &&& 0xFF, 0x00, 0x00, 0x10, 0x00,
                0x80, 0x00, 0x00, 0x80, 0x5F, 0x9B, 0x34, 0xFB] := rfl

theorem expand_length (u : Nat) : (expand u).length = 16 := rfl

/-- Contracting an expanded block recovers the short code. -/
theorem contract16_expand (u : Nat) (h : u < 65536) : contract16 (expand u) = u :=
  u16_split_combine u h

/-- Claim C7: for every 16-bit short code `u`, expanding `u` (writing the
big-endian halves of `u` at byte offsets 2 and 3 of the fixed base template)
and contracting the result (reading offsets 2 and 3) returns `u`, and the
expanded block agrees with the base template at every offset other than
2 and 3. -/
theorem C7_uuid_roundtrip (u : Nat) (h : u < 65536) :
    contract16 (expand u) = u ∧
    ∀ j, j < 16 → j ≠ DPKT_POS_SH8 → j ≠ DPKT_POS_SH0 →
      (expand u).getD j 0 = BASE_UUID.getD j 0 := by
  refine ⟨contract16_expand u h, ?_⟩
  intro j hj h2 h3
  interval_cases j <;> first
    | rfl
    | exact absurd rfl h2
    | exact absurd rfl h3

/-- Witness for C7 at the FTMS service short code 0x1826. -/
theorem C7_uuid_roundtrip_witness :
    contract16 (expand 0x1826) = 0x1826 ∧ (expand 0x1826).getD 0 0 = BASE_UUID.getD 0 0 :=
  ⟨(C7_uuid_roundtrip 0x1826 (by decide)).1,
   (C7_uuid_roundtrip 0x1826 (by decide)).2 0 (by decide) (by decide) (by decide)⟩


/-! ## Shape lemmas for `parse`

One lemma per reachable success branch of `parse`, characterising the
returned code and packet.  `declaredLength` abbreviates the 16-bit
big-endian length read from bytes 4 and 5. -/

def declaredLength (buf : List Nat) : Nat := ((buf.getD 4 0) <<< 8) ||| buf.getD 5 0

theorem parse_ds0 (p : DirconPacket) (buf : List Nat) (last_seq_number : Int)
    (hid : buf.getD 1 0 = DPKT_MSGID_DISCOVER_SERVICES)
    (hrc : buf.getD 3 0 = DPKT_RESPCODE_SUCCESS_REQUEST)
    (hdl : declaredLength buf = 0)
    (hlen : 6 ≤ buf.length) :
    p.parse buf last_seq_number = ((6 : Int),
      { p with MessageVersion := buf.getD 0 0, Identifier := buf.getD 1 0,
               SequenceNumber := (buf.getD 2 0 : Nat), ResponseCode := buf.getD 3 0,
               Length := 0, isRequest := seqIsRequest last_seq_number (buf.getD 2 0 : Nat) }) := by
  simp only [declaredLength] at hdl
  simp only [DPKT_MSGID_DISCOVER_SERVICES, DPKT_MSGID_DISCOVER_CHARACTERISTICS,
    DPKT_MSGID_READ_CHARACTERISTIC, DPKT_MSGID_WRITE_CHARACTERISTIC,
    DPKT_MSGID_ENABLE_CHARACTERISTIC_NOTIFICATIONS,
    DPKT_MSGID_UNSOLICITED_CHARACTERISTIC_NOTIFICATION,
    DPKT_RESPCODE_SUCCESS_REQUEST] at hid hrc
  simp only [DirconPacket.parse, DPKT_MESSAGE_HEADER_LENGTH, DPKT_MSGID_DISCOVER_SERVICES,
    DPKT_RESPCODE_SUCCESS_REQUEST, DPKT_PARSE_WAIT, DPKT_PARSE_ERROR]
  rw [hdl, if_neg (by omega), if_neg (by omega), if_neg (not_not_intro hrc), if_pos hid,
    if_pos rfl]
  rfl

theorem parse_dsResp (p : DirconPacket) (buf : List Nat) (last_seq_number : Int) (L : Nat)
    (hid : buf.getD 1 0 = DPKT_MSGID_DISCOVER_SERVICES)
    (hrc : buf.getD 3 0 = DPKT_RESPCODE_SUCCESS_REQUEST)
    (hdl : declaredLength buf = L) (hL0 : L ≠ 0) (hL16 : L % 16 = 0)
    (hlen : 6 + L ≤ buf.length) :
    p.parse buf last_seq_number = (((6 + L : Nat) : Int),
      { p with MessageVersion := buf.getD 0 0, Identifier := buf.getD 1 0,
               SequenceNumber := (buf.getD 2 0 : Nat), ResponseCode := buf.getD 3 0,
               Length := L, isRequest := false,
               uuids := svcUuidsLoop buf (L / 16) 6 }) := by
  simp only [declaredLength] at hdl
  simp only [DPKT_MSGID_DISCOVER_SERVICES, DPKT_MSGID_DISCOVER_CHARACTERISTICS,
    DPKT_MSGID_READ_CHARACTERISTIC, DPKT_MSGID_WRITE_CHARACTERISTIC,
    DPKT_MSGID_ENABLE_CHARACTERISTIC_NOTIFICATIONS,
    DPKT_MSGID_UNSOLICITED_CHARACTERISTIC_NOTIFICATION,
    DPKT_RESPCODE_SUCCESS_REQUEST] at hid hrc
  simp only [DirconPacket.parse, DPKT_MESSAGE_HEADER_LENGTH, DPKT_MSGID_DISCOVER_SERVICES,
    DPKT_RESPCODE_SUCCESS_REQUEST, DPKT_PARSE_WAIT, DPKT_PARSE_ERROR]
  rw [hdl, if_neg (by omega), if_neg (by omega), if_neg (not_not_intro hrc), if_pos hid,
    if_neg hL0, if_pos hL16]

theorem parse_dc16 (p : DirconPacket) (buf : List Nat) (last_seq_number : Int)
    (hid : buf.getD 1 0 = DPKT_MSGID_DISCOVER_CHARACTERISTICS)
    (hrc : buf.getD 3 0 = DPKT_RESPCODE_SUCCESS_REQUEST)
    (hdl : declaredLength buf = 16)
    (hlen : 22 ≤ buf.length) :
    p.parse buf last_seq_number = ((22 : Int),
      { p with MessageVersion := buf.getD 0 0, Identifier := buf.getD 1 0,
               SequenceNumber := (buf.getD 2 0 : Nat), ResponseCode := buf.getD 3 0,
               Length := 16, uuid := contract16 (pySlice buf 6 22),
               isRequest := seqIsRequest last_seq_number (buf.getD 2 0 : Nat) }) := by
  simp only [declaredLength] at hdl
  simp only [DPKT_MSGID_DISCOVER_SERVICES, DPKT_MSGID_DISCOVER_CHARACTERISTICS,
    DPKT_MSGID_READ_CHARACTERISTIC, DPKT_MSGID_WRITE_CHARACTERISTIC,
    DPKT_MSGID_ENABLE_CHARACTERISTIC_NOTIFICATIONS,
    DPKT_MSGID_UNSOLICITED_CHARACTERISTIC_NOTIFICATION,
    DPKT_RESPCODE_SUCCESS_REQUEST] at hid hrc
  simp only [DirconPacket.parse, DPKT_MESSAGE_HEADER_LENGTH, DPKT_MSGID_DISCOVER_SERVICES,
    DPKT_MSGID_DISCOVER_CHARACTERISTICS, DPKT_RESPCODE_SUCCESS_REQUEST, DPKT_PARSE_WAIT,
    DPKT_PARSE_ERROR]
  rw [hdl, if_neg (by omega), if_neg (by omega), if_neg (not_not_intro hrc),
    if_neg (by rw [hid]; decide), if_pos hid, if_pos (by norm_num), if_pos rfl]
  rfl

theorem parse_dcResp (p : DirconPacket) (buf : List Nat) (last_seq_number : Int) (n : Nat)
    (hid : buf.getD 1 0 = DPKT_MSGID_DISCOVER_CHARACTERISTICS)
    (hrc : buf.getD 3 0 = DPKT_RESPCODE_SUCCESS_REQUEST)
    (hdl : declaredLength buf = 16 + 17 * n) (hn : n ≠ 0)
    (hlen : 6 + (16 + 17 * n) ≤ buf.length) :
    p.parse buf last_seq_number = (((6 + (16 + 17 * n) : Nat) : Int),
      { p with MessageVersion := buf.getD 0 0, Identifier := buf.getD 1 0,
               SequenceNumber := (buf.getD 2 0 : Nat), ResponseCode := buf.getD 3 0,
               Length := 16 + 17 * n, uuid := contract16 (pySlice buf 6 22),
               isRequest := false,
               uuids := (charUuidsDataLoop buf n 22).1,
               additional_data := (charUuidsDataLoop buf n 22).2 }) := by
  simp only [declaredLength] at hdl
  simp only [DPKT_MSGID_DISCOVER_SERVICES, DPKT_MSGID_DISCOVER_CHARACTERISTICS,
    DPKT_MSGID_READ_CHARACTERISTIC, DPKT_MSGID_WRITE_CHARACTERISTIC,
    DPKT_MSGID_ENABLE_CHARACTERISTIC_NOTIFICATIONS,
    DPKT_MSGID_UNSOLICITED_CHARACTERISTIC_NOTIFICATION,
    DPKT_RESPCODE_SUCCESS_REQUEST] at hid hrc
  simp only [DirconPacket.parse, DPKT_MESSAGE_HEADER_LENGTH, DPKT_MSGID_DISCOVER_SERVICES,
    DPKT_MSGID_DISCOVER_CHARACTERISTICS, DPKT_RESPCODE_SUCCESS_REQUEST, DPKT_PARSE_WAIT,
    DPKT_PARSE_ERROR]
  rw [hdl, if_neg (by omega), if_neg (by omega), if_neg (not_not_intro hrc),
    if_neg (by rw [hid]; decide), if_pos hid, if_pos (by omega), if_neg (by omega),
    if_pos (by omega)]
  have hq : (16 + 17 * n - 16) / 17 = n := by omega
  rw [hq]

theorem parse_read16 (p : DirconPacket) (buf : List Nat) (last_seq_number : Int)
    (hid : buf.getD 1 0 = DPKT_MSGID_READ_CHARACTERISTIC)
    (hrc : buf.getD 3 0 = DPKT_RESPCODE_SUCCESS_REQUEST)
    (hdl : declaredLength buf = 16)
    (hlen : 22 ≤ buf.length) :
    p.parse buf last_seq_number = ((22 : Int),
      { p with MessageVersion := buf.getD 0 0, Identifier := buf.getD 1 0,
               SequenceNumber := (buf.getD 2 0 : Nat), ResponseCode := buf.getD 3 0,
               Length := 16, uuid := contract16 (pySlice buf 6 22),
               isRequest := seqIsRequest last_seq_number (buf.getD 2 0 : Nat),
               additional_data := pySlice buf 10 22 }) := by
  simp only [declaredLength] at hdl
  simp only [DPKT_MSGID_DISCOVER_SERVICES, DPKT_MSGID_DISCOVER_CHARACTERISTICS,
    DPKT_MSGID_READ_CHARACTERISTIC, DPKT_MSGID_WRITE_CHARACTERISTIC,
    DPKT_MSGID_ENABLE_CHARACTERISTIC_NOTIFICATIONS,
    DPKT_MSGID_UNSOLICITED_CHARACTERISTIC_NOTIFICATION,
    DPKT_RESPCODE_SUCCESS_REQUEST] at hid hrc
  simp only [DirconPacket.parse, DPKT_MESSAGE_HEADER_LENGTH, DPKT_MSGID_DISCOVER_SERVICES,
    DPKT_MSGID_DISCOVER_CHARACTERISTICS, DPKT_MSGID_READ_CHARACTERISTIC,
    DPKT_RESPCODE_SUCCESS_REQUEST, DPKT_PARSE_WAIT, DPKT_PARSE_ERROR]
  rw [hdl, if_neg (by omega), if_neg (by omega), if_neg (not_not_intro hrc),
    if_neg (by rw [hid]; decide), if_neg (by rw [hid]; decide), if_pos hid,
    if_pos (by norm_num), if_pos rfl]
  rfl

theorem parse_readLong (p : DirconPacket) (buf : List Nat) (last_seq_number : Int) (L : Nat)
    (hid : buf.getD 1 0 = DPKT_MSGID_READ_CHARACTERISTIC)
    (hrc : buf.getD 3 0 = DPKT_RESPCODE_SUCCESS_REQUEST)
    (hdl : declaredLength buf = L) (hL : 16 ≤ L) (hL16 : L ≠ 16)
    (hlen : 6 + L ≤ buf.length) :
    p.parse buf last_seq_number = (((6 + L : Nat) : Int),
      { p with MessageVersion := buf.getD 0 0, Identifier := buf.getD 1 0,
               SequenceNumber := (buf.getD 2 0 : Nat), ResponseCode := buf.getD 3 0,
               Length := L, uuid := contract16 (pySlice buf 6 22),
               isRequest := false }) := by
  simp only [declaredLength] at hdl
  simp only [DPKT_MSGID_DISCOVER_SERVICES, DPKT_MSGID_DISCOVER_CHARACTERISTICS,
    DPKT_MSGID_READ_CHARACTERISTIC, DPKT_MSGID_WRITE_CHARACTERISTIC,
    DPKT_MSGID_ENABLE_CHARACTERISTIC_NOTIFICATIONS,
    DPKT_MSGID_UNSOLICITED_CHARACTERISTIC_NOTIFICATION,
    DPKT_RESPCODE_SUCCESS_REQUEST] at hid hrc
  simp only [DirconPacket.parse, DPKT_MESSAGE_HEADER_LENGTH, DPKT_MSGID_DISCOVER_SERVICES,
    DPKT_MSGID_DISCOVER_CHARACTERISTICS, DPKT_MSGID_READ_CHARACTERISTIC,
    DPKT_RESPCODE_SUCCESS_REQUEST, DPKT_PARSE_WAIT, DPKT_PARSE_ERROR]
  rw [hdl, if_neg (by omega), if_neg (by omega), if_neg (not_not_intro hrc),
    if_neg (by rw [hid]; decide), if_neg (by rw [hid]; decide), if_pos hid,
    if_pos hL, if_neg hL16]

theorem parse_wc (p : DirconPacket) (buf : List Nat) (last_seq_number : Int) (L : Nat)
    (hid : buf.getD 1 0 = DPKT_MSGID_WRITE_CHARACTERISTIC)
    (hrc : buf.getD 3 0 = DPKT_RESPCODE_SUCCESS_REQUEST)
    (hdl : declaredLength buf = L) (hL : 16 < L)
    (hlen : 6 + L ≤ buf.length) :
    p.parse buf last_seq_number = (((6 + L : Nat) : Int),
      { p with MessageVersion := buf.getD 0 0, Identifier := buf.getD 1 0,
               SequenceNumber := (buf.getD 2 0 : Nat), ResponseCode := buf.getD 3 0,
               Length := L, uuid := contract16 (pySlice buf 6 22),
               isRequest := seqIsRequest last_seq_number (buf.getD 2 0 : Nat),
               additional_data := pySlice buf 22 (6 + L) }) := by
  simp only [declaredLength] at hdl
  simp only [DPKT_MSGID_DISCOVER_SERVICES, DPKT_MSGID_DISCOVER_CHARACTERISTICS,
    DPKT_MSGID_READ_CHARACTERISTIC, DPKT_MSGID_WRITE_CHARACTERISTIC,
    DPKT_MSGID_ENABLE_CHARACTERISTIC_NOTIFICATIONS,
    DPKT_MSGID_UNSOLICITED_CHARACTERISTIC_NOTIFICATION,
    DPKT_RESPCODE_SUCCESS_REQUEST] at hid hrc
  simp only [DirconPacket.parse, DPKT_MESSAGE_HEADER_LENGTH, DPKT_MSGID_DISCOVER_SERVICES,
    DPKT_MSGID_DISCOVER_CHARACTERISTICS, DPKT_MSGID_READ_CHARACTERISTIC,
    DPKT_MSGID_WRITE_CHARACTERISTIC, DPKT_RESPCODE_SUCCESS_REQUEST, DPKT_PARSE_WAIT,
    DPKT_PARSE_ERROR]
  rw [hdl, if_neg (by omega), if_neg (by omega), if_neg (not_not_intro hrc),
    if_neg (by rw [hid]; decide), if_neg (by rw [hid]; decide), if_neg (by rw [hid]; decide),
    if_pos hid, if_pos hL]

theorem parse_en16 (p : DirconPacket) (buf : List Nat) (last_seq_number : Int)
    (hid : buf.getD 1 0 = DPKT_MSGID_ENABLE_CHARACTERISTIC_NOTIFICATIONS)
    (hrc : buf.getD 3 0 = DPKT_RESPCODE_SUCCESS_REQUEST)
    (hdl : declaredLength buf = 16)
    (hlen : 22 ≤ buf.length) :
    p.parse buf last_seq_number = ((22 : Int),
      { p with MessageVersion := buf.getD 0 0, Identifier := buf.getD 1 0,
               SequenceNumber := (buf.getD 2 0 : Nat), ResponseCode := buf.getD 3 0,
               Length := 16, uuid := contract16 (pySlice buf 6 22),
               isRequest := false }) := by
  simp only [declaredLength] at hdl
  simp only [DPKT_MSGID_DISCOVER_SERVICES, DPKT_MSGID_DISCOVER_CHARACTERISTICS,
    DPKT_MSGID_READ_CHARACTERISTIC, DPKT_MSGID_WRITE_CHARACTERISTIC,
    DPKT_MSGID_ENABLE_CHARACTERISTIC_NOTIFICATIONS,
    DPKT_MSGID_UNSOLICITED_CHARACTERISTIC_NOTIFICATION,
    DPKT_RESPCODE_SUCCESS_REQUEST] at hid hrc
  simp only [DirconPacket.parse, DPKT_MESSAGE_HEADER_LENGTH, DPKT_MSGID_DISCOVER_SERVICES,
    DPKT_MSGID_DISCOVER_CHARACTERISTICS, DPKT_MSGID_READ_CHARACTERISTIC,
    DPKT_MSGID_WRITE_CHARACTERISTIC, DPKT_MSGID_ENABLE_CHARACTERISTIC_NOTIFICATIONS,
    DPKT_RESPCODE_SUCCESS_REQUEST, DPKT_PARSE_WAIT, DPKT_PARSE_ERROR]
  rw [hdl, if_neg (by omega), if_neg (by omega), if_neg (not_not_intro hrc),
    if_neg (by rw [hid]; decide), if_neg (by rw [hid]; decide), if_neg (by rw [hid]; decide),
    if_neg (by rw [hid]; decide), if_pos hid, if_pos (Or.inl rfl), if_neg (by norm_num)]
  rfl

theorem parse_en17 (p : DirconPacket) (buf : List Nat) (last_seq_number : Int)
    (hid : buf.getD 1 0 = DPKT_MSGID_ENABLE_CHARACTERISTIC_NOTIFICATIONS)
    (hrc : buf.getD 3 0 = DPKT_RESPCODE_SUCCESS_REQUEST)
    (hdl : declaredLength buf = 17)
    (hlen : 23 ≤ buf.length) :
    p.parse buf last_seq_number = ((23 : Int),
      { p with MessageVersion := buf.getD 0 0, Identifier := buf.getD 1 0,
               SequenceNumber := (buf.getD 2 0 : Nat), ResponseCode := buf.getD 3 0,
               Length := 17, uuid := contract16 (pySlice buf 6 22),
               isRequest := true, additional_data := pySlice buf 22 23 }) := by
  simp only [declaredLength] at hdl
  simp only [DPKT_MSGID_DISCOVER_SERVICES, DPKT_MSGID_DISCOVER_CHARACTERISTICS,
    DPKT_MSGID_READ_CHARACTERISTIC, DPKT_MSGID_WRITE_CHARACTERISTIC,
    DPKT_MSGID_ENABLE_CHARACTERISTIC_NOTIFICATIONS,
    DPKT_MSGID_UNSOLICITED_CHARACTERISTIC_NOTIFICATION,
    DPKT_RESPCODE_SUCCESS_REQUEST] at hid hrc
  simp only [DirconPacket.parse, DPKT_MESSAGE_HEADER_LENGTH, DPKT_MSGID_DISCOVER_SERVICES,
    DPKT_MSGID_DISCOVER_CHARACTERISTICS, DPKT_MSGID_READ_CHARACTERISTIC,
    DPKT_MSGID_WRITE_CHARACTERISTIC, DPKT_MSGID_ENABLE_CHARACTERISTIC_NOTIFICATIONS,
    DPKT_RESPCODE_SUCCESS_REQUEST, DPKT_PARSE_WAIT, DPKT_PARSE_ERROR]
  rw [hdl, if_neg (by omega), if_neg (by omega), if_neg (not_not_intro hrc),
    if_neg (by rw [hid]; decide), if_neg (by rw [hid]; decide), if_neg (by rw [hid]; decide),
    if_neg (by rw [hid]; decide), if_pos hid, if_pos (Or.inr rfl), if_pos rfl]
  rfl

theorem parse_un (p : DirconPacket) (buf : List Nat) (last_seq_number : Int) (L : Nat)
    (hid : buf.getD 1 0 = DPKT_MSGID_UNSOLICITED_CHARACTERISTIC_NOTIFICATION)
    (hrc : buf.getD 3 0 = DPKT_RESPCODE_SUCCESS_REQUEST)
    (hdl : declaredLength buf = L) (hL : 16 < L)
    (hlen : 6 + L ≤ buf.length) :
    p.parse buf last_seq_number = (((6 + L : Nat) : Int),
      { p with MessageVersion := buf.getD 0 0, Identifier := buf.getD 1 0,
               SequenceNumber := (buf.getD 2 0 : Nat), ResponseCode := buf.getD 3 0,
               Length := L, uuid := contract16 (pySlice buf 6 22),
               isRequest := false, additional_data := pySlice buf 22 (6 + L) }) := by
  simp only [declaredLength] at hdl
  simp only [DPKT_MSGID_DISCOVER_SERVICES, DPKT_MSGID_DISCOVER_CHARACTERISTICS,
    DPKT_MSGID_READ_CHARACTERISTIC, DPKT_MSGID_WRITE_CHARACTERISTIC,
    DPKT_MSGID_ENABLE_CHARACTERISTIC_NOTIFICATIONS,
    DPKT_MSGID_UNSOLICITED_CHARACTERISTIC_NOTIFICATION,
    DPKT_RESPCODE_SUCCESS_REQUEST] at hid hrc
  simp only [DirconPacket.parse, DPKT_MESSAGE_HEADER_LENGTH, DPKT_MSGID_DISCOVER_SERVICES,
    DPKT_MSGID_DISCOVER_CHARACTERISTICS, DPKT_MSGID_READ_CHARACTERISTIC,
    DPKT_MSGID_WRITE_CHARACTERISTIC, DPKT_MSGID_ENABLE_CHARACTERISTIC_NOTIFICATIONS,
    DPKT_MSGID_UNSOLICITED_CHARACTERISTIC_NOTIFICATION, DPKT_RESPCODE_SUCCESS_REQUEST,
    DPKT_PARSE_WAIT, DPKT_PARSE_ERROR]
  rw [hdl, if_neg (by omega), if_neg (by omega), if_neg (not_not_intro hrc),
    if_neg (by rw [hid]; decide), if_neg (by rw [hid]; decide), if_neg (by rw [hid]; decide),
    if_neg (by rw [hid]; decide), if_neg (by rw [hid]; decide), if_pos hid, if_pos hL]


/-! ## Shape lemmas for `encode` -/

/-- Successful encoding: with a non-Error identifier, byte-valued identifier
and response code, and the assigned sequence value in byte range, `encode`
emits the 6-byte header followed by the payload computed by
`encodePayload`. -/
theorem encode_ok (p0 : DirconPacket) (last_seq_number : Int) (seqv : Int)
    (hseq : (if p0.isRequest then last_seq_number % 256
      else if p0.Identifier = DPKT_MSGID_UNSOLICITED_CHARACTERISTIC_NOTIFICATION then 0
      else last_seq_number) = seqv)
    (hE : p0.Identifier ≠ DPKT_MSGID_ERROR)
    (hId : p0.Identifier < 256) (hRC : p0.ResponseCode < 256)
    (h0 : 0 ≤ seqv) (h1 : seqv < 256) :
    p0.encode last_seq_number = some (
      [1, p0.Identifier, seqv.toNat, p0.ResponseCode,
       ((encodePayload { p0 with SequenceNumber := seqv, MessageVersion := 1 }).1 >>> 8) &&& 255,
       (encodePayload { p0 with SequenceNumber := seqv, MessageVersion := 1 }).1 &&& 255] ++
        (encodePayload { p0 with SequenceNumber := seqv, MessageVersion := 1 }).2,
      { p0 with SequenceNumber := seqv, MessageVersion := 1,
                Length := (encodePayload { p0 with SequenceNumber := seqv, MessageVersion := 1 }).1 }) := by
  simp only [DirconPacket.encode]
  rw [if_neg hE, hseq]
  simp [appendByteN, appendByteI, hId, hRC, h0, h1]

/-- Failed encoding: with a non-Error identifier and the assigned sequence
value out of byte range, `encode` raises (returns `none`). -/
theorem encode_fail (p0 : DirconPacket) (last_seq_number : Int) (seqv : Int)
    (hseq : (if p0.isRequest then last_seq_number % 256
      else if p0.Identifier = DPKT_MSGID_UNSOLICITED_CHARACTERISTIC_NOTIFICATION then 0
      else last_seq_number) = seqv)
    (hE : p0.Identifier ≠ DPKT_MSGID_ERROR)
    (hId : p0.Identifier < 256)
    (hout : ¬ (0 ≤ seqv ∧ seqv < 256)) :
    p0.encode last_seq_number = none := by
  simp only [DirconPacket.encode]
  rw [if_neg hE, hseq]
  simp [appendByteN, appendByteI, hId, hout]

/-! ## Flow control, error responses, direction inference -/

/-- Claim C5: `parse` returns `DPKT_PARSE_WAIT` (NeedMoreData) exactly when
the buffer holds fewer than the 6 header bytes, or at least 6 but fewer than
6 plus the declared big-endian 16-bit length; the flow-control code tells
the caller to keep the whole buffer and append more bytes (nothing is
consumed). -/
theorem C5_need_more_data (p : DirconPacket) (buf : List Nat) (last_seq_number : Int) :
    (p.parse buf last_seq_number).1 = DPKT_PARSE_WAIT ↔
      buf.length < DPKT_MESSAGE_HEADER_LENGTH ∨
      buf.length < DPKT_MESSAGE_HEADER_LENGTH + declaredLength buf := by
  simp only [declaredLength, DPKT_MESSAGE_HEADER_LENGTH, DPKT_PARSE_WAIT]
  by_cases h1 : buf.length < 6
  · refine iff_of_true ?_ (Or.inl h1)
    simp only [DirconPacket.parse, DPKT_MESSAGE_HEADER_LENGTH, DPKT_PARSE_WAIT, if_pos h1]
  · by_cases h2 : buf.length < 6 + ((buf.getD 4 0) <<< 8 ||| buf.getD 5 0)
    · refine iff_of_true ?_ (Or.inr h2)
      simp only [DirconPacket.parse, DPKT_MESSAGE_HEADER_LENGTH, DPKT_PARSE_WAIT,
        DPKT_PARSE_ERROR, if_neg h1]
      rw [if_pos h2]
    · refine iff_of_false ?_ (by omega)
      simp only [DirconPacket.parse, DPKT_MESSAGE_HEADER_LENGTH, DPKT_PARSE_WAIT,
        DPKT_PARSE_ERROR, if_neg h1]
      rw [if_neg h2]
      simp only [apply_ite (Prod.fst : Int × DirconPacket → Int)]
      split_ifs <;> first
        | exact not_false
        | omega

/-- Claim C6: a complete frame whose responseCode differs from success is
accepted before any per-identifier dispatch: the consumed length is exactly
6 + declared length whatever the identifier, and `uuid`, `uuids` and the
payload are left untouched. -/
theorem C6_error_response_accepted (p : DirconPacket) (buf : List Nat) (last_seq_number : Int)
    (hhdr : DPKT_MESSAGE_HEADER_LENGTH ≤ buf.length)
    (hrc : buf.getD 3 0 ≠ DPKT_RESPCODE_SUCCESS_REQUEST)
    (hcomplete : DPKT_MESSAGE_HEADER_LENGTH + declaredLength buf ≤ buf.length) :
    (p.parse buf last_seq_number).1 =
      ((DPKT_MESSAGE_HEADER_LENGTH + declaredLength buf : Nat) : Int) ∧
    (p.parse buf last_seq_number).2.uuid = p.uuid ∧
    (p.parse buf last_seq_number).2.uuids = p.uuids ∧
    (p.parse buf last_seq_number).2.additional_data = p.additional_data := by
  simp only [declaredLength, DPKT_MESSAGE_HEADER_LENGTH, DPKT_RESPCODE_SUCCESS_REQUEST]
    at hhdr hrc hcomplete ⊢
  simp only [DirconPacket.parse, DPKT_MESSAGE_HEADER_LENGTH, DPKT_RESPCODE_SUCCESS_REQUEST,
    DPKT_PARSE_WAIT, DPKT_PARSE_ERROR]
  rw [if_neg (by omega), if_neg (by omega), if_pos hrc]
  exact ⟨rfl, rfl, rfl, rfl⟩

/-- Witness for C6 at a concrete 8-byte frame with responseCode 3. -/
theorem C6_error_response_accepted_witness :
    (DirconPacket.parse DirconPacket.init [1, 9, 0, 3, 0, 2, 55, 66] 0).1 = (8 : Int) ∧
    (DirconPacket.parse DirconPacket.init [1, 9, 0, 3, 0, 2, 55, 66] 0).2.uuids = [] := by
  have h := C6_error_response_accepted DirconPacket.init [1, 9, 0, 3, 0, 2, 55, 66] 0
    (by decide) (by decide) (by decide)
  exact ⟨by simpa [declaredLength, DPKT_MESSAGE_HEADER_LENGTH] using h.1, h.2.2.1⟩

/-- Counterexample to claim C3 as stated: in a complete success
ReadCharacteristic frame of declared length 16, the captured payload is the
12 bytes from offset 10 (= 6 + 4) up to the frame end at offset 22, not the
trailing bytes from offset 20 (= 16 + 4). -/
theorem C3_counterexample :
    (DirconPacket.parse DirconPacket.init
      [1, 3, 1, 0, 0, 16, 10, 11, 12, 13, 14, 15, 16, 17, 18, 19, 20, 21, 22, 23, 24, 25]
      0).2.additional_data = [14, 15, 16, 17, 18, 19, 20, 21, 22, 23, 24, 25] ∧
    [14, 15, 16, 17, 18, 19, 20, 21, 22, 23, 24, 25] ≠ ([24, 25] : List Nat) := by decide

/-- Claim C3 (amended): for every buffer holding a complete success
ReadCharacteristic frame with declared length exactly 16, `parse` consumes
22 bytes, sets `isRequest` by the sequence rule, reads the target uuid from
the 16-byte block at offset 6, and captures as payload the bytes from
offset 10 (= 6 + 4) up to the frame end at offset 22. -/
theorem C3_read16_payload (p : DirconPacket) (buf : List Nat) (last_seq_number : Int)
    (hid : buf.getD 1 0 = DPKT_MSGID_READ_CHARACTERISTIC)
    (hrc : buf.getD 3 0 = DPKT_RESPCODE_SUCCESS_REQUEST)
    (hdl : declaredLength buf = 16)
    (hlen : 22 ≤ buf.length) :
    (p.parse buf last_seq_number).1 = (22 : Int) ∧
    ((p.parse buf last_seq_number).2.isRequest = true ↔
      (last_seq_number ≤ 0 ∨ last_seq_number ≠ (buf.getD 2 0 : Nat))) ∧
    (p.parse buf last_seq_number).2.additional_data = pySlice buf 10 22 ∧
    (p.parse buf last_seq_number).2.uuid = contract16 (pySlice buf 6 22) := by
  rw [parse_read16 p buf last_seq_number hid hrc hdl hlen]
  refine ⟨rfl, ?_, rfl, rfl⟩
  simp [seqIsRequest]

/-- Witness for C3 (amended) at a concrete request frame. -/
theorem C3_read16_payload_witness :
    (DirconPacket.parse DirconPacket.init
      [1, 3, 1, 0, 0, 16, 10, 11, 12, 13, 14, 15, 16, 17, 18, 19, 20, 21, 22, 23, 24, 25]
      7).1 = (22 : Int) ∧
    (DirconPacket.parse DirconPacket.init
      [1, 3, 1, 0, 0, 16, 10, 11, 12, 13, 14, 15, 16, 17, 18, 19, 20, 21, 22, 23, 24, 25]
      7).2.isRequest = true := by
  have h := C3_read16_payload DirconPacket.init
    [1, 3, 1, 0, 0, 16, 10, 11, 12, 13, 14, 15, 16, 17, 18, 19, 20, 21, 22, 23, 24, 25] 7
    (by decide) (by decide) (by decide) (by decide)
  exact ⟨h.1, h.2.1.mpr (by decide)⟩

/-- Claim C4: at every parse site that infers direction from frame shape
(DiscoverServices with length 0, DiscoverCharacteristics with length 16,
ReadCharacteristic with length 16, WriteCharacteristic with length over 16),
`isRequest` is set to true exactly when `lastSequenceNumber ≤ 0` or
`lastSequenceNumber` differs from the frame's sequence number; so with
lastSequenceNumber 5 an inbound sequence number 5 yields false, 6 yields
true, and lastSequenceNumber 0 always yields true. -/
theorem C4_direction_inference (p : DirconPacket) (buf : List Nat) (last_seq_number : Int)
    (hrc : buf.getD 3 0 = DPKT_RESPCODE_SUCCESS_REQUEST)
    (hcomplete : DPKT_MESSAGE_HEADER_LENGTH + declaredLength buf ≤ buf.length)
    (hshape :
      (buf.getD 1 0 = DPKT_MSGID_DISCOVER_SERVICES ∧ declaredLength buf = 0) ∨
      (buf.getD 1 0 = DPKT_MSGID_DISCOVER_CHARACTERISTICS ∧ declaredLength buf = 16) ∨
      (buf.getD 1 0 = DPKT_MSGID_READ_CHARACTERISTIC ∧ declaredLength buf = 16) ∨
      (buf.getD 1 0 = DPKT_MSGID_WRITE_CHARACTERISTIC ∧ 16 < declaredLength buf)) :
    ((p.parse buf last_seq_number).2.isRequest = true ↔
      (last_seq_number ≤ 0 ∨ last_seq_number ≠ (buf.getD 2 0 : Nat))) := by
  simp only [DPKT_MESSAGE_HEADER_LENGTH] at hcomplete
  rcases hshape with ⟨hid, hl⟩ | ⟨hid, hl⟩ | ⟨hid, hl⟩ | ⟨hid, hl⟩
  · rw [parse_ds0 p buf last_seq_number hid hrc hl (by omega)]
    simp [seqIsRequest]
  · rw [parse_dc16 p buf last_seq_number hid hrc hl (by omega)]
    simp [seqIsRequest]
  · rw [parse_read16 p buf last_seq_number hid hrc hl (by omega)]
    simp [seqIsRequest]
  · rw [parse_wc p buf last_seq_number (declaredLength buf) hid hrc rfl hl (by omega)]
    simp [seqIsRequest]

/-- Witness for C4: the three sequence-correlation scenarios of the spec. -/
theorem C4_direction_inference_witness :
    (DirconPacket.parse DirconPacket.init [1, 1, 5, 0, 0, 0] 5).2.isRequest = false ∧
    (DirconPacket.parse DirconPacket.init [1, 1, 6, 0, 0, 0] 5).2.isRequest = true ∧
    (DirconPacket.parse DirconPacket.init [1, 1, 9, 0, 0, 0] 0).2.isRequest = true := by
  have g1 := C4_direction_inference DirconPacket.init [1, 1, 5, 0, 0, 0] 5
    (by decide) (by decide) (Or.inl (by decide))
  have g2 := C4_direction_inference DirconPacket.init [1, 1, 6, 0, 0, 0] 5
    (by decide) (by decide) (Or.inl (by decide))
  have g3 := C4_direction_inference DirconPacket.init [1, 1, 9, 0, 0, 0] 0
    (by decide) (by decide) (Or.inl (by decide))
  refine ⟨?_, g2.mpr (by decide), g3.mpr (by decide)⟩
  cases hb : (DirconPacket.parse DirconPacket.init [1, 1, 5, 0, 0, 0] 5).2.isRequest
  · rfl
  · exact absurd (g1.mp hb) (by decide)

/-! ## The encoder's sequence byte -/

/-- Claim C10: `encode` writes the sequence byte totally only on the request
path.  A request masks `lastSequenceNumber` with `& 0xFF` and always
succeeds; a non-request frame whose identifier is neither Error nor
UnsolicitedNotification stores `lastSequenceNumber` unmasked, so encoding
succeeds exactly when `0 ≤ lastSequenceNumber ≤ 255` — under which the
byte-range failure is unreachable and the stored byte equals
`lastSequenceNumber`. -/
theorem C10_encode_sequence_byte :
    (∀ (f : DirconPacket) (last_seq_number : Int),
      f.Identifier < 256 → f.ResponseCode < 256 → f.isRequest = true →
      (f.encode last_seq_number).isSome = true ∧
      (f.Identifier ≠ DPKT_MSGID_ERROR →
        (f.encode last_seq_number).map (fun r => r.1.getD 2 0) =
          some (last_seq_number % 256).toNat)) ∧
    (∀ (f : DirconPacket) (last_seq_number : Int),
      f.Identifier < 256 → f.ResponseCode < 256 → f.isRequest = false →
      f.Identifier ≠ DPKT_MSGID_ERROR →
      f.Identifier ≠ DPKT_MSGID_UNSOLICITED_CHARACTERISTIC_NOTIFICATION →
      ((f.encode last_seq_number).isSome = true ↔
        (0 ≤ last_seq_number ∧ last_seq_number ≤ 255)) ∧
      (0 ≤ last_seq_number → last_seq_number ≤ 255 →
        (f.encode last_seq_number).map (fun r => r.1.getD 2 0) =
          some last_seq_number.toNat)) := by
  constructor
  · intro f last_seq_number hId hRC hReq
    have hm0 : (0 : Int) ≤ last_seq_number % 256 := Int.emod_nonneg _ (by norm_num)
    have hm1 : last_seq_number % 256 < 256 := Int.emod_lt_of_pos _ (by norm_num)
    by_cases hE : f.Identifier = DPKT_MSGID_ERROR
    · exact ⟨by simp [DirconPacket.encode, hE], fun hNE => absurd hE hNE⟩
    · have henc := encode_ok f last_seq_number (last_seq_number % 256)
        (by rw [if_pos hReq]) hE hId hRC hm0 hm1
      rw [henc]
      exact ⟨rfl, fun _ => rfl⟩
  · intro f last_seq_number hId hRC hReq hE hUN
    have hseq : (if f.isRequest then last_seq_number % 256
        else if f.Identifier = DPKT_MSGID_UNSOLICITED_CHARACTERISTIC_NOTIFICATION then 0
        else last_seq_number) = last_seq_number := by
      rw [hReq]; simp [hUN]
    constructor
    · constructor
      · intro hsome
        by_contra hout
        have := encode_fail f last_seq_number last_seq_number hseq hE hId (by omega)
        rw [this] at hsome
        simp at hsome
      · intro hin
        have henc := encode_ok f last_seq_number last_seq_number hseq hE hId hRC
          hin.1 (by omega)
        rw [henc]
        rfl
    · intro hlo hhi
      have henc := encode_ok f last_seq_number last_seq_number hseq hE hId hRC
        hlo (by omega)
      rw [henc]
      rfl

/-- Witness for C10: identifier 3 (ReadCharacteristic), `lastSequenceNumber`
300 — accepted on the request path, rejected on the response path. -/
theorem C10_encode_sequence_byte_witness :
    (({ DirconPacket.init with Identifier := 3, isRequest := true } : DirconPacket).encode
      300).isSome = true ∧
    (({ DirconPacket.init with Identifier := 3 } : DirconPacket).encode 300).isSome = false := by
  have h1 := (C10_encode_sequence_byte.1
    { DirconPacket.init with Identifier := 3, isRequest := true } 300
    (by decide) (by decide) rfl).1
  have h2 := (C10_encode_sequence_byte.2
    { DirconPacket.init with Identifier := 3 } 300
    (by decide) (by decide) rfl (by decide) (by decide)).1
  refine ⟨h1, ?_⟩
  cases hb : (({ DirconPacket.init with Identifier := 3 } : DirconPacket).encode 300).isSome
  · rfl
  · exact absurd (h2.mp hb) (by decide)



/-! ## Telemetry decoder: fixed offsets (C9) -/

/-- Total size in bytes of a list of field definitions. -/
def sizesSum (t : List FieldDef) : Nat := (t.map FieldDef.size).sum

/-- Stepping `decodeFields` over a field that fits and is present. -/
theorem decodeFields_cons_present (data : List Nat) (flags : Nat) (f : FieldDef)
    (rest : List FieldDef) (off off2 : Nat) (hoff : off + f.size = off2)
    (hlen : ¬ data.length < off2) (hp : f.present flags = true) :
    decodeFields data flags (f :: rest) off =
      (fieldKey f, (readVal f.type data off : Rat) * f.resolution) ::
        decodeFields data flags rest off2 := by
  have hdef : decodeFields data flags (f :: rest) off =
      if data.length < off + f.size then []
      else (if f.present flags then
        [(fieldKey f, (readVal f.type data off : Rat) * f.resolution)] else []) ++
        decodeFields data flags rest (off + f.size) := rfl
  rw [hdef, hoff, if_neg hlen, hp]
  simp

/-- Stepping `decodeFields` over a field that fits and is absent: its bytes
are still consumed (the offset advances by its declared size). -/
theorem decodeFields_cons_absent (data : List Nat) (flags : Nat) (f : FieldDef)
    (rest : List FieldDef) (off off2 : Nat) (hoff : off + f.size = off2)
    (hlen : ¬ data.length < off2) (hp : f.present flags = false) :
    decodeFields data flags (f :: rest) off = decodeFields data flags rest off2 := by
  have hdef : decodeFields data flags (f :: rest) off =
      if data.length < off + f.size then []
      else (if f.present flags then
        [(fieldKey f, (readVal f.type data off : Rat) * f.resolution)] else []) ++
        decodeFields data flags rest (off + f.size) := rfl
  rw [hdef, hoff, if_neg hlen, hp]
  simp

/-- A run of fields none of which is present decodes to nothing, whether or
not the data is long enough for them. -/
theorem decodeFields_all_absent (data : List Nat) (flags : Nat) :
    ∀ (t : List FieldDef) (off : Nat), (∀ f ∈ t, f.present flags = false) →
      decodeFields data flags t off = [] := by
  intro t
  induction t with
  | nil => intro off _; rfl
  | cons f rest ih =>
    intro off hab
    have hdef : decodeFields data flags (f :: rest) off =
        if data.length < off + f.size then []
        else (if f.present flags then
          [(fieldKey f, (readVal f.type data off : Rat) * f.resolution)] else []) ++
          decodeFields data flags rest (off + f.size) := rfl
    rw [hdef]
    split_ifs with h1 h2
    · rfl
    · have hfalse := hab f (List.mem_cons_self f rest)
      rw [h2] at hfalse
      exact absurd hfalse (by decide)
    · rw [ih (off + f.size) (fun g hg => hab g (by simp [hg]))]
      simp

/-- The decoded entry of the `i`-th table field sits at the offset given by
the sum of the declared sizes of all earlier table fields — independent of
which fields are present. -/
theorem mem_decodeFields (data : List Nat) (flags : Nat) (d : FieldDef) :
    ∀ (t : List FieldDef) (i off : Nat), i < t.length →
      off + sizesSum (t.take i) + (t.getD i d).size ≤ data.length →
      (t.getD i d).present flags = true →
      (fieldKey (t.getD i d),
        (readVal (t.getD i d).type data (off + sizesSum (t.take i)) : Rat) *
          (t.getD i d).resolution) ∈ decodeFields data flags t off := by
  intro t
  induction t with
  | nil => intro i off hi; simp at hi
  | cons f rest ih =>
    intro i off hi hlen hp
    match i with
    | 0 =>
      simp only [List.take_zero, sizesSum, List.map_nil, List.sum_nil, Nat.add_zero,
        List.getD_cons_zero] at hlen hp ⊢
      have hdef : decodeFields data flags (f :: rest) off =
          if data.length < off + f.size then []
          else (if f.present flags then
            [(fieldKey f, (readVal f.type data off : Rat) * f.resolution)] else []) ++
            decodeFields data flags rest (off + f.size) := rfl
      rw [hdef, if_neg (by omega), hp]
      simp
    | Nat.succ j =>
      simp only [List.take_succ_cons, sizesSum, List.map_cons, List.sum_cons,
        List.getD_cons_succ] at hlen hp ⊢
      have hdef : decodeFields data flags (f :: rest) off =
          if data.length < off + f.size then []
          else (if f.present flags then
            [(fieldKey f, (readVal f.type data off : Rat) * f.resolution)] else []) ++
            decodeFields data flags rest (off + f.size) := rfl
      rw [hdef, if_neg (by omega)]
      refine List.mem_append_right _ ?_
      have hj := ih j (off + f.size) (by simpa using hi) (by simp only [sizesSum]; omega) hp
      have harith : off + f.size + sizesSum (rest.take j) =
          off + (f.size + sizesSum (rest.take j)) := by omega
      rw [harith] at hj
      exact hj

/-- Claim C9: in both telemetry decoders, the byte offset at which the
`i`-th non-Flags table field is read is `2` plus the sum of the declared
sizes of all earlier non-Flags table entries, independent of the Flags
value: an absent field still consumes its declared bytes, so no later field
shifts earlier. -/
theorem C9_fixed_field_offsets :
    (∀ (i : Nat) (data : List Nat), i < 15 →
      2 + sizesSum ((Dircon.FIELD_DEFS.drop 1).take i) +
        ((Dircon.FIELD_DEFS.drop 1).getD i default).size ≤ data.length →
      ((Dircon.FIELD_DEFS.drop 1).getD i default).present (flagsOf data) = true →
      (fieldKey ((Dircon.FIELD_DEFS.drop 1).getD i default),
        (readVal ((Dircon.FIELD_DEFS.drop 1).getD i default).type data
          (2 + sizesSum ((Dircon.FIELD_DEFS.drop 1).take i)) : Rat) *
          ((Dircon.FIELD_DEFS.drop 1).getD i default).resolution) ∈
        (Dircon.decode_indoor_bike_data data).getD []) ∧
    (∀ (i : Nat) (data : List Nat), i < 15 →
      2 + sizesSum ((BleVjoy.FIELD_DEFS.drop 1).take i) +
        ((BleVjoy.FIELD_DEFS.drop 1).getD i default).size ≤ data.length →
      ((BleVjoy.FIELD_DEFS.drop 1).getD i default).present (flagsOf data) = true →
      (fieldKey ((BleVjoy.FIELD_DEFS.drop 1).getD i default),
        (readVal ((BleVjoy.FIELD_DEFS.drop 1).getD i default).type data
          (2 + sizesSum ((BleVjoy.FIELD_DEFS.drop 1).take i)) : Rat) *
          ((BleVjoy.FIELD_DEFS.drop 1).getD i default).resolution) ∈
        (BleVjoy.decode_indoor_bike_data data).getD []) := by
  constructor
  · intro i data hi hlen hp
    have h2 : ¬ data.length < 2 := by omega
    simp only [Dircon.decode_indoor_bike_data, decode_with, if_neg h2, Option.getD_some]
    refine List.mem_cons_of_mem _ ?_
    exact mem_decodeFields data (flagsOf data) default (Dircon.FIELD_DEFS.drop 1) i 2
      (by rw [show (Dircon.FIELD_DEFS.drop 1).length = 15 from rfl]; omega) hlen hp
  · intro i data hi hlen hp
    have h2 : ¬ data.length < 2 := by omega
    simp only [BleVjoy.decode_indoor_bike_data, decode_with, if_neg h2, Option.getD_some]
    refine List.mem_cons_of_mem _ ?_
    exact mem_decodeFields data (flagsOf data) default (BleVjoy.FIELD_DEFS.drop 1) i 2
      (by rw [show (BleVjoy.FIELD_DEFS.drop 1).length = 15 from rfl]; omega) hlen hp

/-- Witness for C9 at field index 2 (InstantaneousCadence, bit 2) on a
payload whose earlier fields are absent — the field is still read at its
table offset 6. -/
theorem C9_fixed_field_offsets_witness :
    (fieldKey ((Dircon.FIELD_DEFS.drop 1).getD 2 default),
      (readVal ((Dircon.FIELD_DEFS.drop 1).getD 2 default).type [4, 0, 1, 0, 2, 0, 3, 0]
        (2 + sizesSum ((Dircon.FIELD_DEFS.drop 1).take 2)) : Rat) *
        ((Dircon.FIELD_DEFS.drop 1).getD 2 default).resolution) ∈
      (Dircon.decode_indoor_bike_data [4, 0, 1, 0, 2, 0, 3, 0]).getD [] :=
  C9_fixed_field_offsets.1 2 [4, 0, 1, 0, 2, 0, 3, 0] (by omega) (by decide) (by decide)



/-! ## Telemetry decoder: single-bit presence (C2) -/

/-- Counterexample to claim C2 as stated: with Flags = 2 (only the
AverageSpeed bit set) and a 6-byte payload, the decoded record carries the
key "speed" in addition to "Flags" and "AverageSpeed", because
InstantaneousSpeed is governed by the inverted bit 0 — so the record does
not contain exactly the key under test plus Flags. -/
theorem C2_counterexample :
    (Dircon.decode_indoor_bike_data [2, 0, 0, 0, 0, 0]).map (fun r => r.map Prod.fst) =
      some ["Flags", "speed", "AverageSpeed"] ∧
    (["Flags", "speed", "AverageSpeed"] : List String) ≠ ["Flags", "AverageSpeed"] := by
  decide

/-- Claim C2 (amended): for a Telemetry Record payload whose Flags value has
every presence bit 0 except the single bit under test (and that carries the
bytes up to and including that field), the decoded keys are exactly `Flags`
plus the field under test plus `InstantaneousSpeed` — the latter because its
presence bit 0 is 0, its sense being inverted relative to all other fields;
with bit 0 itself under test (Flags = 1) the record is exactly `Flags`
(InstantaneousSpeed absent).  Each field thus appears exactly per its
presence rule: InstantaneousSpeed iff bit 0 is 0, every other field iff its
designated bit is 1. -/
theorem C2_single_bit_keys :
    (∀ data : List Nat, data.getD 0 0 = 1 → data.getD 1 0 = 0 → 2 ≤ data.length →
      (Dircon.decode_indoor_bike_data data).map (fun r => r.map Prod.fst) =
        some ["Flags"]) ∧
    (∀ data : List Nat, data.getD 0 0 = 2 → data.getD 1 0 = 0 →
      6 ≤ data.length →
      (Dircon.decode_indoor_bike_data data).map (fun r => r.map Prod.fst) =
        some ["Flags", "speed", "AverageSpeed"]) ∧
    (∀ data : List Nat, data.getD 0 0 = 4 → data.getD 1 0 = 0 →
      8 ≤ data.length →
      (Dircon.decode_indoor_bike_data data).map (fun r => r.map Prod.fst) =
        some ["Flags", "speed", "cadence"]) ∧
    (∀ data : List Nat, data.getD 0 0 = 8 → data.getD 1 0 = 0 →
      10 ≤ data.length →
      (Dircon.decode_indoor_bike_data data).map (fun r => r.map Prod.fst) =
        some ["Flags", "speed", "AverageCadence"]) ∧
    (∀ data : List Nat, data.getD 0 0 = 16 → data.getD 1 0 = 0 →
      13 ≤ data.length →
      (Dircon.decode_indoor_bike_data data).map (fun r => r.map Prod.fst) =
        some ["Flags", "speed", "distance"]) ∧
    (∀ data : List Nat, data.getD 0 0 = 32 → data.getD 1 0 = 0 →
      15 ≤ data.length →
      (Dircon.decode_indoor_bike_data data).map (fun r => r.map Prod.fst) =
        some ["Flags", "speed", "ResistanceLevel"]) ∧
    (∀ data : List Nat, data.getD 0 0 = 64 → data.getD 1 0 = 0 →
      17 ≤ data.length →
      (Dircon.decode_indoor_bike_data data).map (fun r => r.map Prod.fst) =
        some ["Flags", "speed", "power"]) ∧
    (∀ data : List Nat, data.getD 0 0 = 128 → data.getD 1 0 = 0 →
      19 ≤ data.length →
      (Dircon.decode_indoor_bike_data data).map (fun r => r.map Prod.fst) =
        some ["Flags", "speed", "AveragePower"]) ∧
    (∀ data : List Nat, data.getD 0 0 = 0 → data.getD 1 0 = 1 →
      21 ≤ data.length →
      (Dircon.decode_indoor_bike_data data).map (fun r => r.map Prod.fst) =
        some ["Flags", "speed", "TotalEnergy"]) ∧
    (∀ data : List Nat, data.getD 0 0 = 0 → data.getD 1 0 = 2 →
      23 ≤ data.length →
      (Dircon.decode_indoor_bike_data data).map (fun r => r.map Prod.fst) =
        some ["Flags", "speed", "EnergyPerHour"]) ∧
    (∀ data : List Nat, data.getD 0 0 = 0 → data.getD 1 0 = 4 →
      24 ≤ data.length →
      (Dircon.decode_indoor_bike_data data).map (fun r => r.map Prod.fst) =
        some ["Flags", "speed", "EnergyPerMinute"]) ∧
    (∀ data : List Nat, data.getD 0 0 = 0 → data.getD 1 0 = 8 →
      25 ≤ data.length →
      (Dircon.decode_indoor_bike_data data).map (fun r => r.map Prod.fst) =
        some ["Flags", "speed", "heartRate"]) ∧
    (∀ data : List Nat, data.getD 0 0 = 0 → data.getD 1 0 = 16 →
      26 ≤ data.length →
      (Dircon.decode_indoor_bike_data data).map (fun r => r.map Prod.fst) =
        some ["Flags", "speed", "MetabolicEquivalent"]) ∧
    (∀ data : List Nat, data.getD 0 0 = 0 → data.getD 1 0 = 32 →
      28 ≤ data.length →
      (Dircon.decode_indoor_bike_data data).map (fun r => r.map Prod.fst) =
        some ["Flags", "speed", "ElapsedTime"]) ∧
    (∀ data : List Nat, data.getD 0 0 = 0 → data.getD 1 0 = 64 →
      30 ≤ data.length →
      (Dircon.decode_indoor_bike_data data).map (fun r => r.map Prod.fst) =
        some ["Flags", "speed", "RemainingTime"]) := by
  refine ⟨?_, ?_, ?_, ?_, ?_, ?_, ?_, ?_, ?_, ?_, ?_, ?_, ?_, ?_, ?_⟩
  · intro data h0 h1 hlen2
    have hfl : flagsOf data = 1 := by simp only [flagsOf]; omega
    simp only [Dircon.decode_indoor_bike_data, decode_with, Dircon.FIELD_DEFS,
      List.drop_succ_cons, List.drop_zero]
    rw [if_neg (by omega), hfl]
    rw [decodeFields_all_absent _ _ _ _]
    simp
    intro f hf
    fin_cases hf <;> rfl
  · intro data h0 h1 hlen2
    have hfl : flagsOf data = 2 := by simp only [flagsOf]; omega
    simp only [Dircon.decode_indoor_bike_data, decode_with, Dircon.FIELD_DEFS,
      List.drop_succ_cons, List.drop_zero]
    rw [if_neg (by omega), hfl]
    rw [decodeFields_cons_present _ _ _ _ _ 4]
    rw [decodeFields_cons_present _ _ _ _ _ 6]
    rw [decodeFields_all_absent _ _ _ _]
    simp [fieldKey]
    all_goals first
      | rfl
      | omega
      | decide
      | (intro f hf; fin_cases hf <;> rfl)
  · intro data h0 h1 hlen2
    have hfl : flagsOf data = 4 := by simp only [flagsOf]; omega
    simp only [Dircon.decode_indoor_bike_data, decode_with, Dircon.FIELD_DEFS,
      List.drop_succ_cons, List.drop_zero]
    rw [if_neg (by omega), hfl]
    rw [decodeFields_cons_present _ _ _ _ _ 4]
    rw [decodeFields_cons_absent _ _ _ _ _ 6]
    rw [decodeFields_cons_present _ _ _ _ _ 8]
    rw [decodeFields_all_absent _ _ _ _]
    simp [fieldKey]
    all_goals first
      | rfl
      | omega
      | decide
      | (intro f hf; fin_cases hf <;> rfl)
  · intro data h0 h1 hlen2
    have hfl : flagsOf data = 8 := by simp only [flagsOf]; omega
    simp only [Dircon.decode_indoor_bike_data, decode_with, Dircon.FIELD_DEFS,
      List.drop_succ_cons, List.drop_zero]
    rw [if_neg (by omega), hfl]
    rw [decodeFields_cons_present _ _ _ _ _ 4]
    rw [decodeFields_cons_absent _ _ _ _ _ 6]
    rw [decodeFields_cons_absent _ _ _ _ _ 8]
    rw [decodeFields_cons_present _ _ _ _ _ 10]
    rw [decodeFields_all_absent _ _ _ _]
    simp [fieldKey]
    all_goals first
      | rfl
      | omega
      | decide
      | (intro f hf; fin_cases hf <;> rfl)
  · intro data h0 h1 hlen2
    have hfl : flagsOf data = 16 := by simp only [flagsOf]; omega
    simp only [Dircon.decode_indoor_bike_data, decode_with, Dircon.FIELD_DEFS,
      List.drop_succ_cons, List.drop_zero]
    rw [if_neg (by omega), hfl]
    rw [decodeFields_cons_present _ _ _ _ _ 4]
    rw [decodeFields_cons_absent _ _ _ _ _ 6]
    rw [decodeFields_cons_absent _ _ _ _ _ 8]
    rw [decodeFields_cons_absent _ _ _ _ _ 10]
    rw [decodeFields_cons_present _ _ _ _ _ 13]
    rw [decodeFields_all_absent _ _ _ _]
    simp [fieldKey]
    all_goals first
      | rfl
      | omega
      | decide
      | (intro f hf; fin_cases hf <;> rfl)
  · intro data h0 h1 hlen2
    have hfl : flagsOf data = 32 := by simp only [flagsOf]; omega
    simp only [Dircon.decode_indoor_bike_data, decode_with, Dircon.FIELD_DEFS,
      List.drop_succ_cons, List.drop_zero]
    rw [if_neg (by omega), hfl]
    rw [decodeFields_cons_present _ _ _ _ _ 4]
    rw [decodeFields_cons_absent _ _ _ _ _ 6]
    rw [decodeFields_cons_absent _ _ _ _ _ 8]
    rw [decodeFields_cons_absent _ _ _ _ _ 10]
    rw [decodeFields_cons_absent _ _ _ _ _ 13]
    rw [decodeFields_cons_present _ _ _ _ _ 15]
    rw [decodeFields_all_absent _ _ _ _]
    simp [fieldKey]
    all_goals first
      | rfl
      | omega
      | decide
      | (intro f hf; fin_cases hf <;> rfl)
  · intro data h0 h1 hlen2
    have hfl : flagsOf data = 64 := by simp only [flagsOf]; omega
    simp only [Dircon.decode_indoor_bike_data, decode_with, Dircon.FIELD_DEFS,
      List.drop_succ_cons, List.drop_zero]
    rw [if_neg (by omega), hfl]
    rw [decodeFields_cons_present _ _ _ _ _ 4]
    rw [decodeFields_cons_absent _ _ _ _ _ 6]
    rw [decodeFields_cons_absent _ _ _ _ _ 8]
    rw [decodeFields_cons_absent _ _ _ _ _ 10]
    rw [decodeFields_cons_absent _ _ _ _ _ 13]
    rw [decodeFields_cons_absent _ _ _ _ _ 15]
    rw [decodeFields_cons_present _ _ _ _ _ 17]
    rw [decodeFields_all_absent _ _ _ _]
    simp [fieldKey]
    all_goals first
      | rfl
      | omega
      | decide
      | (intro f hf; fin_cases hf <;> rfl)
  · intro data h0 h1 hlen2
    have hfl : flagsOf data = 128 := by simp only [flagsOf]; omega
    simp only [Dircon.decode_indoor_bike_data, decode_with, Dircon.FIELD_DEFS,
      List.drop_succ_cons, List.drop_zero]
    rw [if_neg (by omega), hfl]
    rw [decodeFields_cons_present _ _ _ _ _ 4]
    rw [decodeFields_cons_absent _ _ _ _ _ 6]
    rw [decodeFields_cons_absent _ _ _ _ _ 8]
    rw [decodeFields_cons_absent _ _ _ _ _ 10]
    rw [decodeFields_cons_absent _ _ _ _ _ 13]
    rw [decodeFields_cons_absent _ _ _ _ _ 15]
    rw [decodeFields_cons_absent _ _ _ _ _ 17]
    rw [decodeFields_cons_present _ _ _ _ _ 19]
    rw [decodeFields_all_absent _ _ _ _]
    simp [fieldKey]
    all_goals first
      | rfl
      | omega
      | decide
      | (intro f hf; fin_cases hf <;> rfl)
  · intro data h0 h1 hlen2
    have hfl : flagsOf data = 256 := by simp only [flagsOf]; omega
    simp only [Dircon.decode_indoor_bike_data, decode_with, Dircon.FIELD_DEFS,
      List.drop_succ_cons, List.drop_zero]
    rw [if_neg (by omega), hfl]
    rw [decodeFields_cons_present _ _ _ _ _ 4]
    rw [decodeFields_cons_absent _ _ _ _ _ 6]
    rw [decodeFields_cons_absent _ _ _ _ _ 8]
    rw [decodeFields_cons_absent _ _ _ _ _ 10]
    rw [decodeFields_cons_absent _ _ _ _ _ 13]
    rw [decodeFields_cons_absent _ _ _ _ _ 15]
    rw [decodeFields_cons_absent _ _ _ _ _ 17]
    rw [decodeFields_cons_absent _ _ _ _ _ 19]
    rw [decodeFields_cons_present _ _ _ _ _ 21]
    rw [decodeFields_all_absent _ _ _ _]
    simp [fieldKey]
    all_goals first
      | rfl
      | omega
      | decide
      | (intro f hf; fin_cases hf <;> rfl)
  · intro data h0 h1 hlen2
    have hfl : flagsOf data = 512 := by simp only [flagsOf]; omega
    simp only [Dircon.decode_indoor_bike_data, decode_with, Dircon.FIELD_DEFS,
      List.drop_succ_cons, List.drop_zero]
    rw [if_neg (by omega), hfl]
    rw [decodeFields_cons_present _ _ _ _ _ 4]
    rw [decodeFields_cons_absent _ _ _ _ _ 6]
    rw [decodeFields_cons_absent _ _ _ _ _ 8]
    rw [decodeFields_cons_absent _ _ _ _ _ 10]
    rw [decodeFields_cons_absent _ _ _ _ _ 13]
    rw [decodeFields_cons_absent _ _ _ _ _ 15]
    rw [decodeFields_cons_absent _ _ _ _ _ 17]
    rw [decodeFields_cons_absent _ _ _ _ _ 19]
    rw [decodeFields_cons_absent _ _ _ _ _ 21]
    rw [decodeFields_cons_present _ _ _ _ _ 23]
    rw [decodeFields_all_absent _ _ _ _]
    simp [fieldKey]
    all_goals first
      | rfl
      | omega
      | decide
      | (intro f hf; fin_cases hf <;> rfl)
  · intro data h0 h1 hlen2
    have hfl : flagsOf data = 1024 := by simp only [flagsOf]; omega
    simp only [Dircon.decode_indoor_bike_data, decode_with, Dircon.FIELD_DEFS,
      List.drop_succ_cons, List.drop_zero]
    rw [if_neg (by omega), hfl]
    rw [decodeFields_cons_present _ _ _ _ _ 4]
    rw [decodeFields_cons_absent _ _ _ _ _ 6]
    rw [decodeFields_cons_absent _ _ _ _ _ 8]
    rw [decodeFields_cons_absent _ _ _ _ _ 10]
    rw [decodeFields_cons_absent _ _ _ _ _ 13]
    rw [decodeFields_cons_absent _ _ _ _ _ 15]
    rw [decodeFields_cons_absent _ _ _ _ _ 17]
    rw [decodeFields_cons_absent _ _ _ _ _ 19]
    rw [decodeFields_cons_absent _ _ _ _ _ 21]
    rw [decodeFields_cons_absent _ _ _ _ _ 23]
    rw [decodeFields_cons_present _ _ _ _ _ 24]
    rw [decodeFields_all_absent _ _ _ _]
    simp [fieldKey]
    all_goals first
      | rfl
      | omega
      | decide
      | (intro f hf; fin_cases hf <;> rfl)
  · intro data h0 h1 hlen2
    have hfl : flagsOf data = 2048 := by simp only [flagsOf]; omega
    simp only [Dircon.decode_indoor_bike_data, decode_with, Dircon.FIELD_DEFS,
      List.drop_succ_cons, List.drop_zero]
    rw [if_neg (by omega), hfl]
    rw [decodeFields_cons_present _ _ _ _ _ 4]
    rw [decodeFields_cons_absent _ _ _ _ _ 6]
    rw [decodeFields_cons_absent _ _ _ _ _ 8]
    rw [decodeFields_cons_absent _ _ _ _ _ 10]
    rw [decodeFields_cons_absent _ _ _ _ _ 13]
    rw [decodeFields_cons_absent _ _ _ _ _ 15]
    rw [decodeFields_cons_absent _ _ _ _ _ 17]
    rw [decodeFields_cons_absent _ _ _ _ _ 19]
    rw [decodeFields_cons_absent _ _ _ _ _ 21]
    rw [decodeFields_cons_absent _ _ _ _ _ 23]
    rw [decodeFields_cons_absent _ _ _ _ _ 24]
    rw [decodeFields_cons_present _ _ _ _ _ 25]
    rw [decodeFields_all_absent _ _ _ _]
    simp [fieldKey]
    all_goals first
      | rfl
      | omega
      | decide
      | (intro f hf; fin_cases hf <;> rfl)
  · intro data h0 h1 hlen2
    have hfl : flagsOf data = 4096 := by simp only [flagsOf]; omega
    simp only [Dircon.decode_indoor_bike_data, decode_with, Dircon.FIELD_DEFS,
      List.drop_succ_cons, List.drop_zero]
    rw [if_neg (by omega), hfl]
    rw [decodeFields_cons_present _ _ _ _ _ 4]
    rw [decodeFields_cons_absent _ _ _ _ _ 6]
    rw [decodeFields_cons_absent _ _ _ _ _ 8]
    rw [decodeFields_cons_absent _ _ _ _ _ 10]
    rw [decodeFields_cons_absent _ _ _ _ _ 13]
    rw [decodeFields_cons_absent _ _ _ _ _ 15]
    rw [decodeFields_cons_absent _ _ _ _ _ 17]
    rw [decodeFields_cons_absent _ _ _ _ _ 19]
    rw [decodeFields_cons_absent _ _ _ _ _ 21]
    rw [decodeFields_cons_absent _ _ _ _ _ 23]
    rw [decodeFields_cons_absent _ _ _ _ _ 24]
    rw [decodeFields_cons_absent _ _ _ _ _ 25]
    rw [decodeFields_cons_present _ _ _ _ _ 26]
    rw [decodeFields_all_absent _ _ _ _]
    simp [fieldKey]
    all_goals first
      | rfl
      | omega
      | decide
      | (intro f hf; fin_cases hf <;> rfl)
  · intro data h0 h1 hlen2
    have hfl : flagsOf data = 8192 := by simp only [flagsOf]; omega
    simp only [Dircon.decode_indoor_bike_data, decode_with, Dircon.FIELD_DEFS,
      List.drop_succ_cons, List.drop_zero]
    rw [if_neg (by omega), hfl]
    rw [decodeFields_cons_present _ _ _ _ _ 4]
    rw [decodeFields_cons_absent _ _ _ _ _ 6]
    rw [decodeFields_cons_absent _ _ _ _ _ 8]
    rw [decodeFields_cons_absent _ _ _ _ _ 10]
    rw [decodeFields_cons_absent _ _ _ _ _ 13]
    rw [decodeFields_cons_absent _ _ _ _ _ 15]
    rw [decodeFields_cons_absent _ _ _ _ _ 17]
    rw [decodeFields_cons_absent _ _ _ _ _ 19]
    rw [decodeFields_cons_absent _ _ _ _ _ 21]
    rw [decodeFields_cons_absent _ _ _ _ _ 23]
    rw [decodeFields_cons_absent _ _ _ _ _ 24]
    rw [decodeFields_cons_absent _ _ _ _ _ 25]
    rw [decodeFields_cons_absent _ _ _ _ _ 26]
    rw [decodeFields_cons_present _ _ _ _ _ 28]
    rw [decodeFields_all_absent _ _ _ _]
    simp [fieldKey]
    all_goals first
      | rfl
      | omega
      | decide
      | (intro f hf; fin_cases hf <;> rfl)
  · intro data h0 h1 hlen2
    have hfl : flagsOf data = 16384 := by simp only [flagsOf]; omega
    simp only [Dircon.decode_indoor_bike_data, decode_with, Dircon.FIELD_DEFS,
      List.drop_succ_cons, List.drop_zero]
    rw [if_neg (by omega), hfl]
    rw [decodeFields_cons_present _ _ _ _ _ 4]
    rw [decodeFields_cons_absent _ _ _ _ _ 6]
    rw [decodeFields_cons_absent _ _ _ _ _ 8]
    rw [decodeFields_cons_absent _ _ _ _ _ 10]
    rw [decodeFields_cons_absent _ _ _ _ _ 13]
    rw [decodeFields_cons_absent _ _ _ _ _ 15]
    rw [decodeFields_cons_absent _ _ _ _ _ 17]
    rw [decodeFields_cons_absent _ _ _ _ _ 19]
    rw [decodeFields_cons_absent _ _ _ _ _ 21]
    rw [decodeFields_cons_absent _ _ _ _ _ 23]
    rw [decodeFields_cons_absent _ _ _ _ _ 24]
    rw [decodeFields_cons_absent _ _ _ _ _ 25]
    rw [decodeFields_cons_absent _ _ _ _ _ 26]
    rw [decodeFields_cons_absent _ _ _ _ _ 28]
    rw [decodeFields_cons_present _ _ _ _ _ 30]
    rw [decodeFields_all_absent _ _ _ _]
    simp [fieldKey]
    all_goals first
      | rfl
      | omega
      | decide
      | (intro f hf; fin_cases hf <;> rfl)

/-- Witness for C2 (amended) at the AverageSpeed bit (Flags = 2). -/
theorem C2_single_bit_keys_witness :
    (Dircon.decode_indoor_bike_data [2, 0, 11, 0, 22, 0]).map (fun r => r.map Prod.fst) =
      some ["Flags", "speed", "AverageSpeed"] :=
  C2_single_bit_keys.2.1 [2, 0, 11, 0, 22, 0] rfl rfl (by decide)



/-! ## Telemetry decoder: the two field tables (C8) -/

/-- The tables test presence bits with `(flags >> k) & 1 == 1`, which is
`Nat.testBit`. -/
theorem decide_shift_and_eq_testBit (x k : Nat) :
    decide (((x >>> k) &&& 1) = 1) = x.testBit k := by
  rw [Nat.testBit_to_div_mod, Nat.shiftRight_eq_div_pow, Nat.and_one_is_mod]

/-- Two tables whose entries agree field-for-field — including on presence
at the given Flags value — decode identically. -/
theorem decodeFields_congr (data : List Nat) (flags : Nat) :
    ∀ (t1 t2 : List FieldDef) (off : Nat),
      List.Forall₂ (fun f g => f.name = g.name ∧ f.size = g.size ∧ f.type = g.type ∧
        f.resolution = g.resolution ∧ f.short = g.short ∧
        f.present flags = g.present flags) t1 t2 →
      decodeFields data flags t1 off = decodeFields data flags t2 off := by
  intro t1 t2 off h
  induction h generalizing off with
  | nil => rfl
  | @cons a b l1 l2 hfg hrest ih =>
    obtain ⟨hn, hs, ht, hr, hsh, hp⟩ := hfg
    have hk : fieldKey a = fieldKey b := by
      unfold fieldKey
      rw [hn, hsh]
    have hd1 : decodeFields data flags (a :: l1) off =
        if data.length < off + a.size then []
        else (if a.present flags then
          [(fieldKey a, (readVal a.type data off : Rat) * a.resolution)] else []) ++
          decodeFields data flags l1 (off + a.size) := rfl
    have hd2 : decodeFields data flags (b :: l2) off =
        if data.length < off + b.size then []
        else (if b.present flags then
          [(fieldKey b, (readVal b.type data off : Rat) * b.resolution)] else []) ++
          decodeFields data flags l2 (off + b.size) := rfl
    rw [hd1, hd2, hk, hs, ht, hr, hp, ih]

/-- Counterexample to claim C8 as stated: the payload with Flags = 0x100
(bit 8 set, every bit above bit 8 clear) and 22 further zero bytes decodes
differently under the two tables — the live-BLE table also emits
EnergyPerHour and EnergyPerMinute at bit 8, while the Dircon table keeps
them at bits 9 and 10. -/
theorem C8_counterexample :
    BleVjoy.decode_indoor_bike_data ([0, 1] ++ List.replicate 22 0) ≠
      Dircon.decode_indoor_bike_data ([0, 1] ++ List.replicate 22 0) := by
  intro h
  exact absurd (congrArg (Option.map (fun r => r.map Prod.fst)) h) (by decide)

/-- Claim C8 (amended): the Dircon-path field table assigns presence bits
sequentially, bit 1 for AverageSpeed through bit 14 for RemainingTime; and
the live-BLE table agrees with it up to and including bit 7, so for every
payload whose Flags value has all bits at or above bit 8 clear (not just
above bit 8 — bit 8 itself already diverges, see the counterexample), the
live-BLE and Dircon `decode_indoor_bike_data` return equal records. -/
theorem C8_bit_assignment_and_agreement :
    (∀ flags : Nat,
      ((Dircon.FIELD_DEFS.getD 2 default).name = "AverageSpeed" ∧
        (Dircon.FIELD_DEFS.getD 2 default).present flags = flags.testBit 1) ∧
      ((Dircon.FIELD_DEFS.getD 3 default).name = "InstantaneousCadence" ∧
        (Dircon.FIELD_DEFS.getD 3 default).present flags = flags.testBit 2) ∧
      ((Dircon.FIELD_DEFS.getD 4 default).name = "AverageCadence" ∧
        (Dircon.FIELD_DEFS.getD 4 default).present flags = flags.testBit 3) ∧
      ((Dircon.FIELD_DEFS.getD 5 default).name = "TotalDistance" ∧
        (Dircon.FIELD_DEFS.getD 5 default).present flags = flags.testBit 4) ∧
      ((Dircon.FIELD_DEFS.getD 6 default).name = "ResistanceLevel" ∧
        (Dircon.FIELD_DEFS.getD 6 default).present flags = flags.testBit 5) ∧
      ((Dircon.FIELD_DEFS.getD 7 default).name = "InstantaneousPower" ∧
        (Dircon.FIELD_DEFS.getD 7 default).present flags = flags.testBit 6) ∧
      ((Dircon.FIELD_DEFS.getD 8 default).name = "AveragePower" ∧
        (Dircon.FIELD_DEFS.getD 8 default).present flags = flags.testBit 7) ∧
      ((Dircon.FIELD_DEFS.getD 9 default).name = "TotalEnergy" ∧
        (Dircon.FIELD_DEFS.getD 9 default).present flags = flags.testBit 8) ∧
      ((Dircon.FIELD_DEFS.getD 10 default).name = "EnergyPerHour" ∧
        (Dircon.FIELD_DEFS.getD 10 default).present flags = flags.testBit 9) ∧
      ((Dircon.FIELD_DEFS.getD 11 default).name = "EnergyPerMinute" ∧
        (Dircon.FIELD_DEFS.getD 11 default).present flags = flags.testBit 10) ∧
      ((Dircon.FIELD_DEFS.getD 12 default).name = "HeartRate" ∧
        (Dircon.FIELD_DEFS.getD 12 default).present flags = flags.testBit 11) ∧
      ((Dircon.FIELD_DEFS.getD 13 default).name = "MetabolicEquivalent" ∧
        (Dircon.FIELD_DEFS.getD 13 default).present flags = flags.testBit 12) ∧
      ((Dircon.FIELD_DEFS.getD 14 default).name = "ElapsedTime" ∧
        (Dircon.FIELD_DEFS.getD 14 default).present flags = flags.testBit 13) ∧
      ((Dircon.FIELD_DEFS.getD 15 default).name = "RemainingTime" ∧
        (Dircon.FIELD_DEFS.getD 15 default).present flags = flags.testBit 14)) ∧
    (∀ data : List Nat, data.getD 0 0 < 256 → data.getD 1 0 = 0 →
      BleVjoy.decode_indoor_bike_data data = Dircon.decode_indoor_bike_data data) := by
  constructor
  · intro flags
    exact ⟨⟨rfl, decide_shift_and_eq_testBit flags 1⟩, ⟨rfl, decide_shift_and_eq_testBit flags 2⟩, ⟨rfl, decide_shift_and_eq_testBit flags 3⟩, ⟨rfl, decide_shift_and_eq_testBit flags 4⟩, ⟨rfl, decide_shift_and_eq_testBit flags 5⟩, ⟨rfl, decide_shift_and_eq_testBit flags 6⟩, ⟨rfl, decide_shift_and_eq_testBit flags 7⟩, ⟨rfl, decide_shift_and_eq_testBit flags 8⟩, ⟨rfl, decide_shift_and_eq_testBit flags 9⟩, ⟨rfl, decide_shift_and_eq_testBit flags 10⟩, ⟨rfl, decide_shift_and_eq_testBit flags 11⟩, ⟨rfl, decide_shift_and_eq_testBit flags 12⟩, ⟨rfl, decide_shift_and_eq_testBit flags 13⟩, ⟨rfl, decide_shift_and_eq_testBit flags 14⟩⟩
  · intro data h0 h1
    have hflt : flagsOf data < 256 := by
      simp only [flagsOf]
      omega
    have hsr : ∀ k : Nat, 8 ≤ k → flagsOf data >>> k = 0 := by
      intro k hk
      rw [Nat.shiftRight_eq_div_pow]
      apply Nat.div_eq_of_lt
      have h256 : (256 : Nat) ≤ 2 ^ k :=
        calc (256 : Nat) = 2 ^ 8 := by norm_num
          _ ≤ 2 ^ k := Nat.pow_le_pow_right (by norm_num) hk
      omega
    have hforall : List.Forall₂
        (fun f g => f.name = g.name ∧ f.size = g.size ∧ f.type = g.type ∧
          f.resolution = g.resolution ∧ f.short = g.short ∧
          f.present (flagsOf data) = g.present (flagsOf data))
        (BleVjoy.FIELD_DEFS.drop 1) (Dircon.FIELD_DEFS.drop 1) := by
      simp only [BleVjoy.FIELD_DEFS, Dircon.FIELD_DEFS, List.drop_succ_cons, List.drop_zero]
      refine .cons ⟨rfl, rfl, rfl, rfl, rfl, rfl⟩ ?_
      refine .cons ⟨rfl, rfl, rfl, rfl, rfl, rfl⟩ ?_
      refine .cons ⟨rfl, rfl, rfl, rfl, rfl, rfl⟩ ?_
      refine .cons ⟨rfl, rfl, rfl, rfl, rfl, rfl⟩ ?_
      refine .cons ⟨rfl, rfl, rfl, rfl, rfl, rfl⟩ ?_
      refine .cons ⟨rfl, rfl, rfl, rfl, rfl, rfl⟩ ?_
      refine .cons ⟨rfl, rfl, rfl, rfl, rfl, rfl⟩ ?_
      refine .cons ⟨rfl, rfl, rfl, rfl, rfl, rfl⟩ ?_
      refine .cons ⟨rfl, rfl, rfl, rfl, rfl, rfl⟩ ?_
      refine .cons ⟨rfl, rfl, rfl, rfl, rfl, ?_⟩ ?_
      · show decide (((flagsOf data >>> 8) &&& 1) = 1) =
          decide (((flagsOf data >>> 9) &&& 1) = 1)
        rw [hsr 8 (by norm_num), hsr 9 (by norm_num)]
      refine .cons ⟨rfl, rfl, rfl, rfl, rfl, ?_⟩ ?_
      · show decide (((flagsOf data >>> 8) &&& 1) = 1) =
          decide (((flagsOf data >>> 10) &&& 1) = 1)
        rw [hsr 8 (by norm_num), hsr 10 (by norm_num)]
      refine .cons ⟨rfl, rfl, rfl, rfl, rfl, ?_⟩ ?_
      · show decide (((flagsOf data >>> 9) &&& 1) = 1) =
          decide (((flagsOf data >>> 11) &&& 1) = 1)
        rw [hsr 9 (by norm_num), hsr 11 (by norm_num)]
      refine .cons ⟨rfl, rfl, rfl, rfl, rfl, ?_⟩ ?_
      · show decide (((flagsOf data >>> 10) &&& 1) = 1) =
          decide (((flagsOf data >>> 12) &&& 1) = 1)
        rw [hsr 10 (by norm_num), hsr 12 (by norm_num)]
      refine .cons ⟨rfl, rfl, rfl, rfl, rfl, ?_⟩ ?_
      · show decide (((flagsOf data >>> 11) &&& 1) = 1) =
          decide (((flagsOf data >>> 13) &&& 1) = 1)
        rw [hsr 11 (by norm_num), hsr 13 (by norm_num)]
      refine .cons ⟨rfl, rfl, rfl, rfl, rfl, ?_⟩ ?_
      · show decide (((flagsOf data >>> 12) &&& 1) = 1) =
          decide (((flagsOf data >>> 14) &&& 1) = 1)
        rw [hsr 12 (by norm_num), hsr 14 (by norm_num)]
      exact .nil
    simp only [BleVjoy.decode_indoor_bike_data, Dircon.decode_indoor_bike_data, decode_with]
    by_cases hl : data.length < 2
    · rw [if_pos hl, if_pos hl]
    · rw [if_neg hl, if_neg hl, decodeFields_congr data (flagsOf data) _ _ 2 hforall]

/-- Witness for C8: the presence bit of InstantaneousCadence at Flags 4, and
table agreement on a concrete sub-bit-8 payload. -/
theorem C8_bit_assignment_and_agreement_witness :
    (Dircon.FIELD_DEFS.getD 3 default).present 4 = Nat.testBit 4 2 ∧
    BleVjoy.decode_indoor_bike_data [68, 0, 1, 0, 2, 0, 3, 0] =
      Dircon.decode_indoor_bike_data [68, 0, 1, 0, 2, 0, 3, 0] :=
  ⟨(C8_bit_assignment_and_agreement.1 4).2.1.2,
   C8_bit_assignment_and_agreement.2 [68, 0, 1, 0, 2, 0, 3, 0] (by decide) rfl⟩



/-! ## Round trip (C1): encoder payload branches -/

/-- The wire bytes produced by a successful `encode` (empty if it failed or
the identifier was Error). -/
def encodeBytes (f : DirconPacket) (seq : Int) : List Nat :=
  ((f.encode seq).map Prod.fst).getD []

theorem ep_dsReq (p : DirconPacket) (hid : p.Identifier = DPKT_MSGID_DISCOVER_SERVICES)
    (hreq : p.isRequest = true) : encodePayload p = (0, []) := by
  simp [encodePayload, hid, hreq, DPKT_MSGID_DISCOVER_SERVICES]

theorem ep_dsResp (p : DirconPacket) (hid : p.Identifier = DPKT_MSGID_DISCOVER_SERVICES)
    (hreq : p.isRequest = false) (hrc : p.ResponseCode = DPKT_RESPCODE_SUCCESS_REQUEST) :
    encodePayload p = (p.uuids.length * 16, (p.uuids.map expand).flatten) := by
  simp [encodePayload, hid, hreq, hrc, DPKT_MSGID_DISCOVER_SERVICES,
    DPKT_RESPCODE_SUCCESS_REQUEST]

theorem ep_dcResp (p : DirconPacket)
    (hid : p.Identifier = DPKT_MSGID_DISCOVER_CHARACTERISTICS)
    (hreq : p.isRequest = false) (hrc : p.ResponseCode = DPKT_RESPCODE_SUCCESS_REQUEST) :
    encodePayload p = (16 + p.uuids.length * 17,
      expand p.uuid ++ dcGroups p.uuids p.additional_data) := by
  simp [encodePayload, hid, hreq, hrc, DPKT_MSGID_DISCOVER_SERVICES,
    DPKT_MSGID_DISCOVER_CHARACTERISTICS, DPKT_RESPCODE_SUCCESS_REQUEST]

theorem ep_dcReq (p : DirconPacket)
    (hid : p.Identifier = DPKT_MSGID_DISCOVER_CHARACTERISTICS)
    (hreq : p.isRequest = true) : encodePayload p = (16, expand p.uuid) := by
  simp [encodePayload, hid, hreq, DPKT_MSGID_DISCOVER_SERVICES,
    DPKT_MSGID_DISCOVER_CHARACTERISTICS, DPKT_MSGID_READ_CHARACTERISTIC]

theorem ep_readReq (p : DirconPacket)
    (hid : p.Identifier = DPKT_MSGID_READ_CHARACTERISTIC)
    (hreq : p.isRequest = true) : encodePayload p = (16, expand p.uuid) := by
  simp [encodePayload, hid, hreq, DPKT_MSGID_DISCOVER_SERVICES,
    DPKT_MSGID_DISCOVER_CHARACTERISTICS, DPKT_MSGID_READ_CHARACTERISTIC]

theorem ep_enResp (p : DirconPacket)
    (hid : p.Identifier = DPKT_MSGID_ENABLE_CHARACTERISTIC_NOTIFICATIONS)
    (hreq : p.isRequest = false) (hrc : p.ResponseCode = DPKT_RESPCODE_SUCCESS_REQUEST) :
    encodePayload p = (16, expand p.uuid) := by
  simp [encodePayload, hid, hreq, hrc, DPKT_MSGID_DISCOVER_SERVICES,
    DPKT_MSGID_DISCOVER_CHARACTERISTICS, DPKT_MSGID_READ_CHARACTERISTIC,
    DPKT_MSGID_ENABLE_CHARACTERISTIC_NOTIFICATIONS, DPKT_RESPCODE_SUCCESS_REQUEST]

theorem ep_wc (p : DirconPacket)
    (hid : p.Identifier = DPKT_MSGID_WRITE_CHARACTERISTIC)
    (hreq : p.isRequest = true) :
    encodePayload p = (16 + p.additional_data.length, expand p.uuid ++ p.additional_data) := by
  simp [encodePayload, hid, hreq, DPKT_MSGID_DISCOVER_SERVICES,
    DPKT_MSGID_DISCOVER_CHARACTERISTICS, DPKT_MSGID_READ_CHARACTERISTIC,
    DPKT_MSGID_WRITE_CHARACTERISTIC, DPKT_MSGID_ENABLE_CHARACTERISTIC_NOTIFICATIONS]

theorem ep_readResp (p : DirconPacket)
    (hid : p.Identifier = DPKT_MSGID_READ_CHARACTERISTIC)
    (hreq : p.isRequest = false) (hrc : p.ResponseCode = DPKT_RESPCODE_SUCCESS_REQUEST) :
    encodePayload p = (16 + p.additional_data.length, expand p.uuid ++ p.additional_data) := by
  simp [encodePayload, hid, hreq, hrc, DPKT_MSGID_DISCOVER_SERVICES,
    DPKT_MSGID_DISCOVER_CHARACTERISTICS, DPKT_MSGID_READ_CHARACTERISTIC,
    DPKT_MSGID_WRITE_CHARACTERISTIC, DPKT_MSGID_ENABLE_CHARACTERISTIC_NOTIFICATIONS,
    DPKT_MSGID_UNSOLICITED_CHARACTERISTIC_NOTIFICATION, DPKT_RESPCODE_SUCCESS_REQUEST]

theorem ep_enReq (p : DirconPacket)
    (hid : p.Identifier = DPKT_MSGID_ENABLE_CHARACTERISTIC_NOTIFICATIONS)
    (hreq : p.isRequest = true) :
    encodePayload p = (16 + p.additional_data.length, expand p.uuid ++ p.additional_data) := by
  simp [encodePayload, hid, hreq, DPKT_MSGID_DISCOVER_SERVICES,
    DPKT_MSGID_DISCOVER_CHARACTERISTICS, DPKT_MSGID_READ_CHARACTERISTIC,
    DPKT_MSGID_WRITE_CHARACTERISTIC, DPKT_MSGID_ENABLE_CHARACTERISTIC_NOTIFICATIONS,
    DPKT_MSGID_UNSOLICITED_CHARACTERISTIC_NOTIFICATION]

theorem ep_un (p : DirconPacket)
    (hid : p.Identifier = DPKT_MSGID_UNSOLICITED_CHARACTERISTIC_NOTIFICATION)
    (hreq : p.isRequest = false) (hrc : p.ResponseCode = DPKT_RESPCODE_SUCCESS_REQUEST) :
    encodePayload p = (16 + p.additional_data.length, expand p.uuid ++ p.additional_data) := by
  simp [encodePayload, hid, hreq, hrc, DPKT_MSGID_DISCOVER_SERVICES,
    DPKT_MSGID_DISCOVER_CHARACTERISTICS, DPKT_MSGID_READ_CHARACTERISTIC,
    DPKT_MSGID_WRITE_CHARACTERISTIC, DPKT_MSGID_ENABLE_CHARACTERISTIC_NOTIFICATIONS,
    DPKT_MSGID_UNSOLICITED_CHARACTERISTIC_NOTIFICATION, DPKT_RESPCODE_SUCCESS_REQUEST]

/-! ## Round trip (C1): the parse loops over encoded payloads -/

theorem svcUuidsLoop_encoded :
    ∀ (us : List Nat), (∀ u ∈ us, u < 65536) →
      ∀ (pre : List Nat),
        svcUuidsLoop (pre ++ (us.map expand).flatten) us.length pre.length = us := by
  intro us
  induction us with
  | nil => intro _ pre; rfl
  | cons u t ih =>
    intro hus pre
    have hstep : svcUuidsLoop (pre ++ ((u :: t).map expand).flatten) (t.length + 1) pre.length =
        contract16 (pySlice (pre ++ ((u :: t).map expand).flatten) pre.length (pre.length + 16)) ::
          svcUuidsLoop (pre ++ ((u :: t).map expand).flatten) t.length (pre.length + 16) := rfl
    have hflatR : pre ++ ((u :: t).map expand).flatten =
        pre ++ (expand u ++ (t.map expand).flatten) := rfl
    have hflatL : pre ++ ((u :: t).map expand).flatten =
        (pre ++ expand u) ++ (t.map expand).flatten := by
      rw [hflatR, List.append_assoc]
    have hslice : pySlice (pre ++ ((u :: t).map expand).flatten) pre.length
        (pre.length + 16) = expand u := by
      rw [pySlice, Nat.add_sub_cancel_left, hflatR, List.drop_left,
        show (16 : Nat) = (expand u).length from (expand_length u).symm, List.take_left]
    have hlen16 : pre.length + 16 = (pre ++ expand u).length := by
      simp [expand_length]
    show svcUuidsLoop (pre ++ ((u :: t).map expand).flatten) (t.length + 1) pre.length = u :: t
    rw [hstep, hslice, contract16_expand u (hus u (by simp))]
    congr 1
    rw [hflatL, hlen16]
    exact ih (fun v hv => hus v (by simp [hv])) (pre ++ expand u)

theorem charUuidsDataLoop_encoded :
    ∀ (us : List Nat), (∀ u ∈ us, u < 65536) →
      ∀ (ds : List Nat), ds.length = us.length →
      ∀ (pre : List Nat),
        charUuidsDataLoop (pre ++ dcGroups us ds) us.length pre.length = (us, ds) := by
  intro us
  induction us with
  | nil =>
    intro _ ds hlen pre
    rw [List.eq_nil_of_length_eq_zero hlen]
    rfl
  | cons u t ih =>
    intro hus ds hlen pre
    match ds with
    | [] => simp at hlen
    | d0 :: dt =>
      have hgrp : pre ++ dcGroups (u :: t) (d0 :: dt) =
          pre ++ (expand u ++ ([d0] ++ dcGroups t dt)) := rfl
      have hstep : charUuidsDataLoop (pre ++ dcGroups (u :: t) (d0 :: dt)) (t.length + 1)
          pre.length =
          (contract16 (pySlice (pre ++ dcGroups (u :: t) (d0 :: dt)) pre.length
              (pre.length + 16)) ::
            (charUuidsDataLoop (pre ++ dcGroups (u :: t) (d0 :: dt)) t.length
              (pre.length + 17)).1,
           pySlice (pre ++ dcGroups (u :: t) (d0 :: dt)) (pre.length + 16)
              (pre.length + 17) ++
            (charUuidsDataLoop (pre ++ dcGroups (u :: t) (d0 :: dt)) t.length
              (pre.length + 17)).2) := rfl
      have hlen16 : pre.length + 16 = (pre ++ expand u).length := by
        simp [expand_length]
      have hlen17 : pre.length + 17 = ((pre ++ expand u) ++ [d0]).length := by
        simp [expand_length]
      have hslice1 : pySlice (pre ++ dcGroups (u :: t) (d0 :: dt)) pre.length
          (pre.length + 16) = expand u := by
        rw [pySlice, Nat.add_sub_cancel_left, hgrp, List.drop_left,
          show (16 : Nat) = (expand u).length from (expand_length u).symm, List.take_left]
      have hslice2 : pySlice (pre ++ dcGroups (u :: t) (d0 :: dt)) (pre.length + 16)
          (pre.length + 17) = [d0] := by
        rw [pySlice, show pre.length + 17 - (pre.length + 16) = 1 from by omega, hgrp,
          show pre ++ (expand u ++ ([d0] ++ dcGroups t dt)) =
            (pre ++ expand u) ++ ([d0] ++ dcGroups t dt) from by rw [List.append_assoc],
          hlen16, List.drop_left]
        rfl
      have hflatL : pre ++ dcGroups (u :: t) (d0 :: dt) =
          ((pre ++ expand u) ++ [d0]) ++ dcGroups t dt := by
        rw [hgrp]
        simp [List.append_assoc]
      have hrec := ih (fun v hv => hus v (by simp [hv])) dt (by simpa using hlen)
        ((pre ++ expand u) ++ [d0])
      show charUuidsDataLoop (pre ++ dcGroups (u :: t) (d0 :: dt)) (t.length + 1) pre.length =
        (u :: t, d0 :: dt)
      rw [hstep, hslice1, hslice2, contract16_expand u (hus u (by simp)), hflatL, hlen17, hrec]
      rfl


/-! ## Round trip (C1): slice helpers and per-shape lemmas -/

theorem pySlice_cons6 (a b c d e g x y : Nat) (tail : List Nat) :
    pySlice (a :: b :: c :: d :: e :: g :: tail) (6 + x) (6 + y) = pySlice tail x y := by
  rw [pySlice, pySlice, show 6 + y - (6 + x) = y - x from by omega]
  congr 1
  rw [show 6 + x = 5 + x + 1 from by omega, List.drop_succ_cons,
    show 5 + x = 4 + x + 1 from by omega, List.drop_succ_cons,
    show 4 + x = 3 + x + 1 from by omega, List.drop_succ_cons,
    show 3 + x = 2 + x + 1 from by omega, List.drop_succ_cons,
    show 2 + x = 1 + x + 1 from by omega, List.drop_succ_cons,
    show 1 + x = 0 + x + 1 from by omega, List.drop_succ_cons,
    Nat.zero_add]

theorem slice_block (u : Nat) (d : List Nat) : (expand u ++ d).take 16 = expand u := by
  rw [show (16 : Nat) = (expand u).length from (expand_length u).symm, List.take_left]

theorem slice_tail (u : Nat) (d : List Nat) :
    pySlice (expand u ++ d) 16 (16 + d.length) = d := by
  rw [pySlice, Nat.add_sub_cancel_left,
    show (16 : Nat) = (expand u).length from (expand_length u).symm, List.drop_left,
    List.take_length]

/-- DiscoverServices request round trip: the frame is 6 header bytes; parse
consumes them and leaves the (empty) semantic fields untouched. -/
theorem rt_dsReq (f : DirconPacket) (seq : Int)
    (hid : f.Identifier = DPKT_MSGID_DISCOVER_SERVICES)
    (hreq : f.isRequest = true)
    (hrc : f.ResponseCode = DPKT_RESPCODE_SUCCESS_REQUEST)
    (huuids : f.uuids = []) (hdata : f.additional_data = []) :
    (f.encode seq).isSome = true ∧
    (DirconPacket.parse DirconPacket.init (encodeBytes f seq) seq).1 =
      ((encodeBytes f seq).length : Int) ∧
    (DirconPacket.parse DirconPacket.init (encodeBytes f seq) seq).2.uuids = f.uuids ∧
    (DirconPacket.parse DirconPacket.init (encodeBytes f seq) seq).2.additional_data =
      f.additional_data := by
  have hm0 : (0 : Int) ≤ seq % 256 := Int.emod_nonneg _ (by norm_num)
  have hm1 : seq % 256 < 256 := Int.emod_lt_of_pos _ (by norm_num)
  have henc := encode_ok f seq (seq % 256) (by rw [hreq]; simp) (by rw [hid]; decide)
    (by rw [hid]; decide) (by rw [hrc]; decide) hm0 hm1
  have hep : encodePayload { f with SequenceNumber := (seq % 256 : Int), MessageVersion := 1 } =
      (0, []) := ep_dsReq _ hid hreq
  have hbytes : encodeBytes f seq =
      1 :: f.Identifier :: (seq % 256).toNat :: f.ResponseCode :: 0 :: 0 :: [] := by
    rw [encodeBytes, henc]
    simp only [Option.map_some', Option.getD_some]
    rw [hep]
    simp
  have hlenb : (encodeBytes f seq).length = 6 := by rw [hbytes]; rfl
  have hid1 : (encodeBytes f seq).getD 1 0 = DPKT_MSGID_DISCOVER_SERVICES := by
    rw [hbytes]; exact hid
  have hrc1 : (encodeBytes f seq).getD 3 0 = DPKT_RESPCODE_SUCCESS_REQUEST := by
    rw [hbytes]; exact hrc
  have hdl : declaredLength (encodeBytes f seq) = 0 := by rw [hbytes]; simp [declaredLength]
  have hparse := parse_ds0 DirconPacket.init (encodeBytes f seq) seq hid1 hrc1 hdl
    (by rw [hlenb])
  refine ⟨by rw [henc]; rfl, ?_, ?_, ?_⟩
  · rw [hparse, hlenb]
    rfl
  · rw [hparse]
    exact huuids.symm
  · rw [hparse]
    exact hdata.symm

/-- WriteCharacteristic (request) round trip: uuid and payload are
reproduced and the consumed length is the emitted length. -/
theorem rt_wc (f : DirconPacket) (seq : Int)
    (hid : f.Identifier = DPKT_MSGID_WRITE_CHARACTERISTIC)
    (hreq : f.isRequest = true)
    (hrc : f.ResponseCode = DPKT_RESPCODE_SUCCESS_REQUEST)
    (huuid : f.uuid < 65536)
    (hdata : f.additional_data ≠ [])
    (hfit : 16 + f.additional_data.length < 65536) :
    (f.encode seq).isSome = true ∧
    (DirconPacket.parse DirconPacket.init (encodeBytes f seq) seq).1 =
      ((encodeBytes f seq).length : Int) ∧
    (DirconPacket.parse DirconPacket.init (encodeBytes f seq) seq).2.uuid = f.uuid ∧
    (DirconPacket.parse DirconPacket.init (encodeBytes f seq) seq).2.additional_data =
      f.additional_data := by
  have hm0 : (0 : Int) ≤ seq % 256 := Int.emod_nonneg _ (by norm_num)
  have hm1 : seq % 256 < 256 := Int.emod_lt_of_pos _ (by norm_num)
  have hpos : 0 < f.additional_data.length := List.length_pos.mpr hdata
  have henc := encode_ok f seq (seq % 256) (by rw [hreq]; simp) (by rw [hid]; decide)
    (by rw [hid]; decide) (by rw [hrc]; decide) hm0 hm1
  have hep : encodePayload { f with SequenceNumber := (seq % 256 : Int), MessageVersion := 1 } =
      (16 + f.additional_data.length, expand f.uuid ++ f.additional_data) := ep_wc _ hid hreq
  have hbytes : encodeBytes f seq =
      1 :: f.Identifier :: (seq % 256).toNat :: f.ResponseCode ::
        (((16 + f.additional_data.length) >>> 8) &&& 255) ::
        ((16 + f.additional_data.length) &&& 255) ::
        (expand f.uuid ++ f.additional_data) := by
    rw [encodeBytes, henc]
    simp only [Option.map_some', Option.getD_some]
    rw [hep]
    simp
  have hlenb : (encodeBytes f seq).length = 6 + (16 + f.additional_data.length) := by
    rw [hbytes]
    simp only [List.length_cons, List.length_append, expand_length]
    omega
  have hid1 : (encodeBytes f seq).getD 1 0 = DPKT_MSGID_WRITE_CHARACTERISTIC := by
    rw [hbytes]; exact hid
  have hrc1 : (encodeBytes f seq).getD 3 0 = DPKT_RESPCODE_SUCCESS_REQUEST := by
    rw [hbytes]; exact hrc
  have hdl : declaredLength (encodeBytes f seq) = 16 + f.additional_data.length := by
    rw [hbytes]; exact u16_split_combine _ hfit
  have hparse := parse_wc DirconPacket.init (encodeBytes f seq) seq
    (16 + f.additional_data.length) hid1 hrc1 hdl (by omega) (by rw [hlenb])
  refine ⟨by rw [henc]; rfl, ?_, ?_, ?_⟩
  · rw [hparse, hlenb]
  · rw [hparse]
    show contract16 (pySlice (encodeBytes f seq) 6 22) = f.uuid
    rw [hbytes, show (6 : Nat) = 6 + 0 from rfl, show (22 : Nat) = 6 + 16 from rfl,
      pySlice_cons6]
    show contract16 ((expand f.uuid ++ f.additional_data).take 16) = f.uuid
    rw [slice_block]
    exact contract16_expand _ huuid
  · rw [hparse]
    show pySlice (encodeBytes f seq) 22 (6 + (16 + f.additional_data.length)) =
      f.additional_data
    rw [hbytes, show (22 : Nat) = 6 + 16 from rfl, pySlice_cons6]
    exact slice_tail f.uuid f.additional_data



theorem flatten_expand_length (us : List Nat) :
    ((us.map expand).flatten).length = us.length * 16 := by
  induction us with
  | nil => rfl
  | cons u t ih =>
    rw [List.map_cons, List.flatten_cons, List.length_append, ih, expand_length,
      List.length_cons]
    omega

/-- DiscoverServices response round trip: the emitted UUID blocks parse back
to the same short-code list. -/
theorem rt_dsResp (f : DirconPacket) (seq : Int)
    (hid : f.Identifier = DPKT_MSGID_DISCOVER_SERVICES)
    (hreq : f.isRequest = false)
    (hrc : f.ResponseCode = DPKT_RESPCODE_SUCCESS_REQUEST)
    (hus : ∀ u ∈ f.uuids, u < 65536)
    (hfit : f.uuids.length * 16 < 65536)
    (hs0 : 0 ≤ seq) (hs255 : seq ≤ 255) :
    (f.encode seq).isSome = true ∧
    (DirconPacket.parse DirconPacket.init (encodeBytes f seq) seq).1 =
      ((encodeBytes f seq).length : Int) ∧
    (DirconPacket.parse DirconPacket.init (encodeBytes f seq) seq).2.uuids = f.uuids := by
  have henc := encode_ok f seq seq
    (by rw [hreq]; simp [hid, DPKT_MSGID_DISCOVER_SERVICES,
      DPKT_MSGID_UNSOLICITED_CHARACTERISTIC_NOTIFICATION])
    (by rw [hid]; decide) (by rw [hid]; decide) (by rw [hrc]; decide) hs0 (by omega)
  have hep : encodePayload { f with SequenceNumber := seq, MessageVersion := 1 } =
      (f.uuids.length * 16, (f.uuids.map expand).flatten) := ep_dsResp _ hid hreq hrc
  have hbytes : encodeBytes f seq =
      1 :: f.Identifier :: seq.toNat :: f.ResponseCode ::
        (((f.uuids.length * 16) >>> 8) &&& 255) :: ((f.uuids.length * 16) &&& 255) ::
        (f.uuids.map expand).flatten := by
    rw [encodeBytes, henc]
    simp only [Option.map_some', Option.getD_some]
    rw [hep]
    simp
  have hlenb : (encodeBytes f seq).length = 6 + f.uuids.length * 16 := by
    rw [hbytes]
    simp only [List.length_cons, flatten_expand_length]
    omega
  have hid1 : (encodeBytes f seq).getD 1 0 = DPKT_MSGID_DISCOVER_SERVICES := by
    rw [hbytes]; exact hid
  have hrc1 : (encodeBytes f seq).getD 3 0 = DPKT_RESPCODE_SUCCESS_REQUEST := by
    rw [hbytes]; exact hrc
  have hdl : declaredLength (encodeBytes f seq) = f.uuids.length * 16 := by
    rw [hbytes]; exact u16_split_combine _ hfit
  by_cases hnil : f.uuids = []
  · have hdl0 : declaredLength (encodeBytes f seq) = 0 := by rw [hdl, hnil]; rfl
    have hparse := parse_ds0 DirconPacket.init (encodeBytes f seq) seq hid1 hrc1 hdl0
      (by rw [hlenb]; omega)
    refine ⟨by rw [henc]; rfl, ?_, ?_⟩
    · rw [hparse, hlenb, hnil]
      rfl
    · rw [hparse, hnil]
      rfl
  · have hn : f.uuids.length ≠ 0 := fun h => hnil (List.eq_nil_of_length_eq_zero h)
    have hparse := parse_dsResp DirconPacket.init (encodeBytes f seq) seq
      (f.uuids.length * 16) hid1 hrc1 hdl (by omega) (by omega) (by rw [hlenb])
    refine ⟨by rw [henc]; rfl, ?_, ?_⟩
    · rw [hparse, hlenb]
    · rw [hparse]
      show svcUuidsLoop (encodeBytes f seq) (f.uuids.length * 16 / 16) 6 = f.uuids
      rw [show f.uuids.length * 16 / 16 = f.uuids.length from by omega, hbytes]
      exact svcUuidsLoop_encoded f.uuids hus
        [1, f.Identifier, seq.toNat, f.ResponseCode,
         ((f.uuids.length * 16) >>> 8) &&& 255, (f.uuids.length * 16) &&& 255]

/-- DiscoverCharacteristics request round trip: the target uuid is
reproduced. -/
theorem rt_dcReq (f : DirconPacket) (seq : Int)
    (hid : f.Identifier = DPKT_MSGID_DISCOVER_CHARACTERISTICS)
    (hreq : f.isRequest = true)
    (hrc : f.ResponseCode = DPKT_RESPCODE_SUCCESS_REQUEST)
    (huuid : f.uuid < 65536) :
    (f.encode seq).isSome = true ∧
    (DirconPacket.parse DirconPacket.init (encodeBytes f seq) seq).1 =
      ((encodeBytes f seq).length : Int) ∧
    (DirconPacket.parse DirconPacket.init (encodeBytes f seq) seq).2.uuid = f.uuid := by
  have hm0 : (0 : Int) ≤ seq % 256 := Int.emod_nonneg _ (by norm_num)
  have hm1 : seq % 256 < 256 := Int.emod_lt_of_pos _ (by norm_num)
  have henc := encode_ok f seq (seq % 256) (by rw [hreq]; simp) (by rw [hid]; decide)
    (by rw [hid]; decide) (by rw [hrc]; decide) hm0 hm1
  have hep : encodePayload { f with SequenceNumber := (seq % 256 : Int), MessageVersion := 1 } =
      (16, expand f.uuid) := ep_dcReq _ hid hreq
  have hbytes : encodeBytes f seq =
      1 :: f.Identifier :: (seq % 256).toNat :: f.ResponseCode ::
        ((16 >>> 8) &&& 255) :: (16 &&& 255) :: expand f.uuid := by
    rw [encodeBytes, henc]
    simp only [Option.map_some', Option.getD_some]
    rw [hep]
    simp
  have hlenb : (encodeBytes f seq).length = 22 := by
    rw [hbytes]
    simp only [List.length_cons, expand_length]
  have hid1 : (encodeBytes f seq).getD 1 0 = DPKT_MSGID_DISCOVER_CHARACTERISTICS := by
    rw [hbytes]; exact hid
  have hrc1 : (encodeBytes f seq).getD 3 0 = DPKT_RESPCODE_SUCCESS_REQUEST := by
    rw [hbytes]; exact hrc
  have hdl : declaredLength (encodeBytes f seq) = 16 := by
    rw [hbytes]; exact u16_split_combine 16 (by norm_num)
  have hparse := parse_dc16 DirconPacket.init (encodeBytes f seq) seq hid1 hrc1 hdl
    (by omega)
  refine ⟨by rw [henc]; rfl, ?_, ?_⟩
  · rw [hparse, hlenb]
    rfl
  · rw [hparse]
    show contract16 (pySlice (encodeBytes f seq) 6 22) = f.uuid
    rw [hbytes, show (6 : Nat) = 6 + 0 from rfl, show (22 : Nat) = 6 + 16 from rfl,
      pySlice_cons6]
    rw [pySlice, List.drop_zero, Nat.sub_zero,
      show (16 : Nat) = (expand f.uuid).length from (expand_length _).symm, List.take_length]
    exact contract16_expand _ huuid

/-- DiscoverCharacteristics response round trip: the service uuid, the
characteristic short codes and their property bytes (one per
characteristic) are all reproduced. -/
theorem rt_dcResp (f : DirconPacket) (seq : Int)
    (hid : f.Identifier = DPKT_MSGID_DISCOVER_CHARACTERISTICS)
    (hreq : f.isRequest = false)
    (hrc : f.ResponseCode = DPKT_RESPCODE_SUCCESS_REQUEST)
    (huuid : f.uuid < 65536)
    (hus : ∀ u ∈ f.uuids, u < 65536)
    (hlendata : f.additional_data.length = f.uuids.length)
    (hfit : 16 + f.uuids.length * 17 < 65536)
    (hs0 : 0 ≤ seq) (hs255 : seq ≤ 255) :
    (f.encode seq).isSome = true ∧
    (DirconPacket.parse DirconPacket.init (encodeBytes f seq) seq).1 =
      ((encodeBytes f seq).length : Int) ∧
    (DirconPacket.parse DirconPacket.init (encodeBytes f seq) seq).2.uuid = f.uuid ∧
    (DirconPacket.parse DirconPacket.init (encodeBytes f seq) seq).2.uuids = f.uuids ∧
    (DirconPacket.parse DirconPacket.init (encodeBytes f seq) seq).2.additional_data =
      f.additional_data := by
  have henc := encode_ok f seq seq
    (by rw [hreq]; simp [hid, DPKT_MSGID_DISCOVER_CHARACTERISTICS,
      DPKT_MSGID_UNSOLICITED_CHARACTERISTIC_NOTIFICATION])
    (by rw [hid]; decide) (by rw [hid]; decide) (by rw [hrc]; decide) hs0 (by omega)
  have hep : encodePayload { f with SequenceNumber := seq, MessageVersion := 1 } =
      (16 + f.uuids.length * 17, expand f.uuid ++ dcGroups f.uuids f.additional_data) :=
    ep_dcResp _ hid hreq hrc
  have hbytes : encodeBytes f seq =
      1 :: f.Identifier :: seq.toNat :: f.ResponseCode ::
        (((16 + f.uuids.length * 17) >>> 8) &&& 255) ::
        ((16 + f.uuids.length * 17) &&& 255) ::
        (expand f.uuid ++ dcGroups f.uuids f.additional_data) := by
    rw [encodeBytes, henc]
    simp only [Option.map_some', Option.getD_some]
    rw [hep]
    simp
  have hgl : ∀ (us ds : List Nat), (dcGroups us ds).length = us.length * 17 := by
    intro us
    induction us with
    | nil => intro ds; rfl
    | cons u t ih =>
      intro ds
      show (expand u ++ ([ds.getD 0 0] ++ dcGroups t (ds.drop 1))).length = (u :: t).length * 17
      rw [List.length_append, List.length_append, expand_length, ih (ds.drop 1),
        List.length_cons]
      simp
      omega
  have hlenb : (encodeBytes f seq).length = 6 + (16 + f.uuids.length * 17) := by
    rw [hbytes]
    simp only [List.length_cons, List.length_append, expand_length, hgl]
    omega
  have hid1 : (encodeBytes f seq).getD 1 0 = DPKT_MSGID_DISCOVER_CHARACTERISTICS := by
    rw [hbytes]; exact hid
  have hrc1 : (encodeBytes f seq).getD 3 0 = DPKT_RESPCODE_SUCCESS_REQUEST := by
    rw [hbytes]; exact hrc
  have hdl : declaredLength (encodeBytes f seq) = 16 + f.uuids.length * 17 := by
    rw [hbytes]; exact u16_split_combine _ hfit
  by_cases hnil : f.uuids = []
  · have hdnil : f.additional_data = [] := by
      apply List.eq_nil_of_length_eq_zero
      rw [hlendata, hnil]
      rfl
    have hdl16 : declaredLength (encodeBytes f seq) = 16 := by rw [hdl, hnil]; rfl
    have hparse := parse_dc16 DirconPacket.init (encodeBytes f seq) seq hid1 hrc1 hdl16
      (by rw [hlenb]; omega)
    refine ⟨by rw [henc]; rfl, ?_, ?_, ?_, ?_⟩
    · rw [hparse, hlenb, hnil]
      rfl
    · rw [hparse]
      show contract16 (pySlice (encodeBytes f seq) 6 22) = f.uuid
      rw [hbytes, show (6 : Nat) = 6 + 0 from rfl, show (22 : Nat) = 6 + 16 from rfl,
        pySlice_cons6]
      show contract16 ((expand f.uuid ++ dcGroups f.uuids f.additional_data).take 16) = f.uuid
      rw [slice_block]
      exact contract16_expand _ huuid
    · rw [hparse, hnil]
      rfl
    · rw [hparse, hdnil]
      rfl
  · have hn : f.uuids.length ≠ 0 := fun h => hnil (List.eq_nil_of_length_eq_zero h)
    have hdl17 : declaredLength (encodeBytes f seq) = 16 + 17 * f.uuids.length := by
      rw [hdl, Nat.mul_comm]
    have hparse := parse_dcResp DirconPacket.init (encodeBytes f seq) seq f.uuids.length
      hid1 hrc1 hdl17 hn (by rw [hlenb]; omega)
    have hloop := charUuidsDataLoop_encoded f.uuids hus f.additional_data hlendata
      ([1, f.Identifier, seq.toNat, f.ResponseCode,
        ((16 + f.uuids.length * 17) >>> 8) &&& 255,
        (16 + f.uuids.length * 17) &&& 255] ++ expand f.uuid)
    refine ⟨by rw [henc]; rfl, ?_, ?_, ?_, ?_⟩
    · rw [hparse, hlenb]
      simp
      omega
    · rw [hparse]
      show contract16 (pySlice (encodeBytes f seq) 6 22) = f.uuid
      rw [hbytes, show (6 : Nat) = 6 + 0 from rfl, show (22 : Nat) = 6 + 16 from rfl,
        pySlice_cons6]
      show contract16 ((expand f.uuid ++ dcGroups f.uuids f.additional_data).take 16) = f.uuid
      rw [slice_block]
      exact contract16_expand _ huuid
    · rw [hparse, hbytes]
      exact congrArg Prod.fst hloop
    · rw [hparse, hbytes]
      exact congrArg Prod.snd hloop



/-- ReadCharacteristic request round trip (the quirk): uuid and consumed
length are reproduced, but the parsed payload is the fixed 12 trailing
bytes of the UUID template rather than the request's empty payload. -/
theorem rt_readReq (f : DirconPacket) (seq : Int)
    (hid : f.Identifier = DPKT_MSGID_READ_CHARACTERISTIC)
    (hreq : f.isRequest = true)
    (hrc : f.ResponseCode = DPKT_RESPCODE_SUCCESS_REQUEST)
    (huuid : f.uuid < 65536) :
    (f.encode seq).isSome = true ∧
    (DirconPacket.parse DirconPacket.init (encodeBytes f seq) seq).1 =
      ((encodeBytes f seq).length : Int) ∧
    (DirconPacket.parse DirconPacket.init (encodeBytes f seq) seq).2.uuid = f.uuid ∧
    (DirconPacket.parse DirconPacket.init (encodeBytes f seq) seq).2.additional_data =
      [0x00, 0x00, 0x10, 0x00, 0x80, 0x00, 0x00, 0x80, 0x5F, 0x9B, 0x34, 0xFB] := by
  have hm0 : (0 : Int) ≤ seq % 256 := Int.emod_nonneg _ (by norm_num)
  have hm1 : seq % 256 < 256 := Int.emod_lt_of_pos _ (by norm_num)
  have henc := encode_ok f seq (seq % 256) (by rw [hreq]; simp) (by rw [hid]; decide)
    (by rw [hid]; decide) (by rw [hrc]; decide) hm0 hm1
  have hep : encodePayload { f with SequenceNumber := (seq % 256 : Int), MessageVersion := 1 } =
      (16, expand f.uuid) := ep_readReq _ hid hreq
  have hbytes : encodeBytes f seq =
      1 :: f.Identifier :: (seq % 256).toNat :: f.ResponseCode ::
        ((16 >>> 8) &&& 255) :: (16 &&& 255) :: expand f.uuid := by
    rw [encodeBytes, henc]
    simp only [Option.map_some', Option.getD_some]
    rw [hep]
    simp
  have hlenb : (encodeBytes f seq).length = 22 := by
    rw [hbytes]
    simp only [List.length_cons, expand_length]
  have hid1 : (encodeBytes f seq).getD 1 0 = DPKT_MSGID_READ_CHARACTERISTIC := by
    rw [hbytes]; exact hid
  have hrc1 : (encodeBytes f seq).getD 3 0 = DPKT_RESPCODE_SUCCESS_REQUEST := by
    rw [hbytes]; exact hrc
  have hdl : declaredLength (encodeBytes f seq) = 16 := by
    rw [hbytes]; exact u16_split_combine 16 (by norm_num)
  have hparse := parse_read16 DirconPacket.init (encodeBytes f seq) seq hid1 hrc1 hdl
    (by omega)
  refine ⟨by rw [henc]; rfl, ?_, ?_, ?_⟩
  · rw [hparse, hlenb]
    rfl
  · rw [hparse]
    show contract16 (pySlice (encodeBytes f seq) 6 22) = f.uuid
    rw [hbytes, show (6 : Nat) = 6 + 0 from rfl, show (22 : Nat) = 6 + 16 from rfl,
      pySlice_cons6]
    rw [pySlice, List.drop_zero, Nat.sub_zero,
      show (16 : Nat) = (expand f.uuid).length from (expand_length _).symm, List.take_length]
    exact contract16_expand _ huuid
  · rw [hparse]
    show pySlice (encodeBytes f seq) 10 22 =
      [0x00, 0x00, 0x10, 0x00, 0x80, 0x00, 0x00, 0x80, 0x5F, 0x9B, 0x34, 0xFB]
    rw [hbytes, show (10 : Nat) = 6 + 4 from rfl, show (22 : Nat) = 6 + 16 from rfl,
      pySlice_cons6]
    rfl

/-- ReadCharacteristic response round trip failure: uuid and consumed length
are reproduced but the response payload is dropped — the parsed packet's
payload is empty. -/
theorem rt_readResp (f : DirconPacket) (seq : Int)
    (hid : f.Identifier = DPKT_MSGID_READ_CHARACTERISTIC)
    (hreq : f.isRequest = false)
    (hrc : f.ResponseCode = DPKT_RESPCODE_SUCCESS_REQUEST)
    (huuid : f.uuid < 65536)
    (hdata : f.additional_data ≠ [])
    (hfit : 16 + f.additional_data.length < 65536)
    (hs0 : 0 ≤ seq) (hs255 : seq ≤ 255) :
    (f.encode seq).isSome = true ∧
    (DirconPacket.parse DirconPacket.init (encodeBytes f seq) seq).1 =
      ((encodeBytes f seq).length : Int) ∧
    (DirconPacket.parse DirconPacket.init (encodeBytes f seq) seq).2.uuid = f.uuid ∧
    (DirconPacket.parse DirconPacket.init (encodeBytes f seq) seq).2.additional_data = [] := by
  have hpos : 0 < f.additional_data.length := List.length_pos.mpr hdata
  have henc := encode_ok f seq seq
    (by rw [hreq]; simp [hid, DPKT_MSGID_READ_CHARACTERISTIC,
      DPKT_MSGID_UNSOLICITED_CHARACTERISTIC_NOTIFICATION])
    (by rw [hid]; decide) (by rw [hid]; decide) (by rw [hrc]; decide) hs0 (by omega)
  have hep : encodePayload { f with SequenceNumber := seq, MessageVersion := 1 } =
      (16 + f.additional_data.length, expand f.uuid ++ f.additional_data) :=
    ep_readResp _ hid hreq hrc
  have hbytes : encodeBytes f seq =
      1 :: f.Identifier :: seq.toNat :: f.ResponseCode ::
        (((16 + f.additional_data.length) >>> 8) &&& 255) ::
        ((16 + f.additional_data.length) &&& 255) ::
        (expand f.uuid ++ f.additional_data) := by
    rw [encodeBytes, henc]
    simp only [Option.map_some', Option.getD_some]
    rw [hep]
    simp
  have hlenb : (encodeBytes f seq).length = 6 + (16 + f.additional_data.length) := by
    rw [hbytes]
    simp only [List.length_cons, List.length_append, expand_length]
    omega
  have hid1 : (encodeBytes f seq).getD 1 0 = DPKT_MSGID_READ_CHARACTERISTIC := by
    rw [hbytes]; exact hid
  have hrc1 : (encodeBytes f seq).getD 3 0 = DPKT_RESPCODE_SUCCESS_REQUEST := by
    rw [hbytes]; exact hrc
  have hdl : declaredLength (encodeBytes f seq) = 16 + f.additional_data.length := by
    rw [hbytes]; exact u16_split_combine _ hfit
  have hparse := parse_readLong DirconPacket.init (encodeBytes f seq) seq
    (16 + f.additional_data.length) hid1 hrc1 hdl (by omega) (by omega) (by rw [hlenb])
  refine ⟨by rw [henc]; rfl, ?_, ?_, ?_⟩
  · rw [hparse, hlenb]
  · rw [hparse]
    show contract16 (pySlice (encodeBytes f seq) 6 22) = f.uuid
    rw [hbytes, show (6 : Nat) = 6 + 0 from rfl, show (22 : Nat) = 6 + 16 from rfl,
      pySlice_cons6]
    show contract16 ((expand f.uuid ++ f.additional_data).take 16) = f.uuid
    rw [slice_block]
    exact contract16_expand _ huuid
  · rw [hparse]
    rfl

/-- EnableNotifications request round trip: uuid and the single
enable/disable payload byte are reproduced. -/
theorem rt_enReq (f : DirconPacket) (seq : Int)
    (hid : f.Identifier = DPKT_MSGID_ENABLE_CHARACTERISTIC_NOTIFICATIONS)
    (hreq : f.isRequest = true)
    (hrc : f.ResponseCode = DPKT_RESPCODE_SUCCESS_REQUEST)
    (huuid : f.uuid < 65536)
    (hdata1 : f.additional_data.length = 1) :
    (f.encode seq).isSome = true ∧
    (DirconPacket.parse DirconPacket.init (encodeBytes f seq) seq).1 =
      ((encodeBytes f seq).length : Int) ∧
    (DirconPacket.parse DirconPacket.init (encodeBytes f seq) seq).2.uuid = f.uuid ∧
    (DirconPacket.parse DirconPacket.init (encodeBytes f seq) seq).2.additional_data =
      f.additional_data := by
  obtain ⟨b, hb⟩ := List.length_eq_one.mp hdata1
  have hm0 : (0 : Int) ≤ seq % 256 := Int.emod_nonneg _ (by norm_num)
  have hm1 : seq % 256 < 256 := Int.emod_lt_of_pos _ (by norm_num)
  have henc := encode_ok f seq (seq % 256) (by rw [hreq]; simp) (by rw [hid]; decide)
    (by rw [hid]; decide) (by rw [hrc]; decide) hm0 hm1
  have hep : encodePayload { f with SequenceNumber := (seq % 256 : Int), MessageVersion := 1 } =
      (16 + f.additional_data.length, expand f.uuid ++ f.additional_data) :=
    ep_enReq _ hid hreq
  have hbytes : encodeBytes f seq =
      1 :: f.Identifier :: (seq % 256).toNat :: f.ResponseCode ::
        (((16 + f.additional_data.length) >>> 8) &&& 255) ::
        ((16 + f.additional_data.length) &&& 255) ::
        (expand f.uuid ++ f.additional_data) := by
    rw [encodeBytes, henc]
    simp only [Option.map_some', Option.getD_some]
    rw [hep]
    simp
  have hlenb : (encodeBytes f seq).length = 23 := by
    rw [hbytes]
    simp only [List.length_cons, List.length_append, expand_length, hdata1]
  have hid1 : (encodeBytes f seq).getD 1 0 = DPKT_MSGID_ENABLE_CHARACTERISTIC_NOTIFICATIONS := by
    rw [hbytes]; exact hid
  have hrc1 : (encodeBytes f seq).getD 3 0 = DPKT_RESPCODE_SUCCESS_REQUEST := by
    rw [hbytes]; exact hrc
  have hdl0 : declaredLength (encodeBytes f seq) = 16 + f.additional_data.length := by
    rw [hbytes]; exact u16_split_combine _ (by omega)
  have hdl : declaredLength (encodeBytes f seq) = 17 := by rw [hdl0, hdata1]
  have hparse := parse_en17 DirconPacket.init (encodeBytes f seq) seq hid1 hrc1 hdl
    (by omega)
  refine ⟨by rw [henc]; rfl, ?_, ?_, ?_⟩
  · rw [hparse, hlenb]
    rfl
  · rw [hparse]
    show contract16 (pySlice (encodeBytes f seq) 6 22) = f.uuid
    rw [hbytes, show (6 : Nat) = 6 + 0 from rfl, show (22 : Nat) = 6 + 16 from rfl,
      pySlice_cons6]
    show contract16 ((expand f.uuid ++ f.additional_data).take 16) = f.uuid
    rw [slice_block]
    exact contract16_expand _ huuid
  · rw [hparse]
    show pySlice (encodeBytes f seq) 22 23 = f.additional_data
    rw [hbytes, show (22 : Nat) = 6 + 16 from rfl, show (23 : Nat) = 6 + 17 from rfl,
      pySlice_cons6, hb]
    show pySlice (expand f.uuid ++ [b]) 16 (16 + ([b] : List Nat).length) = [b]
    exact slice_tail f.uuid [b]

/-- EnableNotifications response round trip: the 16-byte UUID-only response
parses back with the uuid reproduced and no payload. -/
theorem rt_enResp (f : DirconPacket) (seq : Int)
    (hid : f.Identifier = DPKT_MSGID_ENABLE_CHARACTERISTIC_NOTIFICATIONS)
    (hreq : f.isRequest = false)
    (hrc : f.ResponseCode = DPKT_RESPCODE_SUCCESS_REQUEST)
    (huuid : f.uuid < 65536)
    (hdata : f.additional_data = [])
    (hs0 : 0 ≤ seq) (hs255 : seq ≤ 255) :
    (f.encode seq).isSome = true ∧
    (DirconPacket.parse DirconPacket.init (encodeBytes f seq) seq).1 =
      ((encodeBytes f seq).length : Int) ∧
    (DirconPacket.parse DirconPacket.init (encodeBytes f seq) seq).2.uuid = f.uuid ∧
    (DirconPacket.parse DirconPacket.init (encodeBytes f seq) seq).2.additional_data =
      f.additional_data := by
  have henc := encode_ok f seq seq
    (by rw [hreq]; simp [hid, DPKT_MSGID_ENABLE_CHARACTERISTIC_NOTIFICATIONS,
      DPKT_MSGID_UNSOLICITED_CHARACTERISTIC_NOTIFICATION])
    (by rw [hid]; decide) (by rw [hid]; decide) (by rw [hrc]; decide) hs0 (by omega)
  have hep : encodePayload { f with SequenceNumber := seq, MessageVersion := 1 } =
      (16, expand f.uuid) := ep_enResp _ hid hreq hrc
  have hbytes : encodeBytes f seq =
      1 :: f.Identifier :: seq.toNat :: f.ResponseCode ::
        ((16 >>> 8) &&& 255) :: (16 &&& 255) :: expand f.uuid := by
    rw [encodeBytes, henc]
    simp only [Option.map_some', Option.getD_some]
    rw [hep]
    simp
  have hlenb : (encodeBytes f seq).length = 22 := by
    rw [hbytes]
    simp only [List.length_cons, expand_length]
  have hid1 : (encodeBytes f seq).getD 1 0 = DPKT_MSGID_ENABLE_CHARACTERISTIC_NOTIFICATIONS := by
    rw [hbytes]; exact hid
  have hrc1 : (encodeBytes f seq).getD 3 0 = DPKT_RESPCODE_SUCCESS_REQUEST := by
    rw [hbytes]; exact hrc
  have hdl : declaredLength (encodeBytes f seq) = 16 := by
    rw [hbytes]; exact u16_split_combine 16 (by norm_num)
  have hparse := parse_en16 DirconPacket.init (encodeBytes f seq) seq hid1 hrc1 hdl
    (by omega)
  refine ⟨by rw [henc]; rfl, ?_, ?_, ?_⟩
  · rw [hparse, hlenb]
    rfl
  · rw [hparse]
    show contract16 (pySlice (encodeBytes f seq) 6 22) = f.uuid
    rw [hbytes, show (6 : Nat) = 6 + 0 from rfl, show (22 : Nat) = 6 + 16 from rfl,
      pySlice_cons6]
    rw [pySlice, List.drop_zero, Nat.sub_zero,
      show (16 : Nat) = (expand f.uuid).length from (expand_length _).symm, List.take_length]
    exact contract16_expand _ huuid
  · rw [hparse, hdata]
    rfl

/-- UnsolicitedNotification round trip: the sequence byte is forced to 0 on
the wire, and uuid and payload are reproduced. -/
theorem rt_un (f : DirconPacket) (seq : Int)
    (hid : f.Identifier = DPKT_MSGID_UNSOLICITED_CHARACTERISTIC_NOTIFICATION)
    (hreq : f.isRequest = false)
    (hrc : f.ResponseCode = DPKT_RESPCODE_SUCCESS_REQUEST)
    (huuid : f.uuid < 65536)
    (hdata : f.additional_data ≠ [])
    (hfit : 16 + f.additional_data.length < 65536) :
    (f.encode seq).isSome = true ∧
    (DirconPacket.parse DirconPacket.init (encodeBytes f seq) seq).1 =
      ((encodeBytes f seq).length : Int) ∧
    (DirconPacket.parse DirconPacket.init (encodeBytes f seq) seq).2.uuid = f.uuid ∧
    (DirconPacket.parse DirconPacket.init (encodeBytes f seq) seq).2.additional_data =
      f.additional_data := by
  have hpos : 0 < f.additional_data.length := List.length_pos.mpr hdata
  have henc := encode_ok f seq 0
    (by rw [hreq]; simp [hid]) (by rw [hid]; decide)
    (by rw [hid]; decide) (by rw [hrc]; decide) (by norm_num) (by norm_num)
  have hep : encodePayload { f with SequenceNumber := (0 : Int), MessageVersion := 1 } =
      (16 + f.additional_data.length, expand f.uuid ++ f.additional_data) :=
    ep_un _ hid hreq hrc
  have hbytes : encodeBytes f seq =
      1 :: f.Identifier :: (0 : Int).toNat :: f.ResponseCode ::
        (((16 + f.additional_data.length) >>> 8) &&& 255) ::
        ((16 + f.additional_data.length) &&& 255) ::
        (expand f.uuid ++ f.additional_data) := by
    rw [encodeBytes, henc]
    simp only [Option.map_some', Option.getD_some]
    rw [hep]
    simp
  have hlenb : (encodeBytes f seq).length = 6 + (16 + f.additional_data.length) := by
    rw [hbytes]
    simp only [List.length_cons, List.length_append, expand_length]
    omega
  have hid1 : (encodeBytes f seq).getD 1 0 =
      DPKT_MSGID_UNSOLICITED_CHARACTERISTIC_NOTIFICATION := by
    rw [hbytes]; exact hid
  have hrc1 : (encodeBytes f seq).getD 3 0 = DPKT_RESPCODE_SUCCESS_REQUEST := by
    rw [hbytes]; exact hrc
  have hdl : declaredLength (encodeBytes f seq) = 16 + f.additional_data.length := by
    rw [hbytes]; exact u16_split_combine _ hfit
  have hparse := parse_un DirconPacket.init (encodeBytes f seq) seq
    (16 + f.additional_data.length) hid1 hrc1 hdl (by omega) (by rw [hlenb])
  refine ⟨by rw [henc]; rfl, ?_, ?_, ?_⟩
  · rw [hparse, hlenb]
  · rw [hparse]
    show contract16 (pySlice (encodeBytes f seq) 6 22) = f.uuid
    rw [hbytes, show (6 : Nat) = 6 + 0 from rfl, show (22 : Nat) = 6 + 16 from rfl,
      pySlice_cons6]
    show contract16 ((expand f.uuid ++ f.additional_data).take 16) = f.uuid
    rw [slice_block]
    exact contract16_expand _ huuid
  · rw [hparse]
    show pySlice (encodeBytes f seq) 22 (6 + (16 + f.additional_data.length)) =
      f.additional_data
    rw [hbytes, show (22 : Nat) = 6 + 16 from rfl, pySlice_cons6]
    exact slice_tail f.uuid f.additional_data



/-- Counterexample to claim C1 as stated: a ReadCharacteristic success
response with payload `[0xAB]` encodes and parses back with an empty
payload — the semantic `payload` field is not reproduced. -/
theorem C1_counterexample :
    ((({ DirconPacket.init with
          Identifier := 3
          uuid := 0x2AD2
          additional_data := [0xAB] } : DirconPacket).encode 1).map
      (fun r => (DirconPacket.parse DirconPacket.init r.1 1).2.additional_data)) =
      some [] ∧ (([] : List Nat) ≠ [0xAB]) := by decide

/-- Claim C1 (amended): `parse (encode f seq) seq` consumes exactly the
emitted length and reproduces the shape's semantic fields (uuid, uuids,
payload) for DiscoverServices (both directions), DiscoverCharacteristics
(request; response with one property byte per characteristic),
WriteCharacteristic (nonempty payload), EnableNotifications (request with
its single payload byte; response), and UnsolicitedNotification (nonempty
payload) — but not for ReadCharacteristic: a request parses back with the
fixed 12 trailing template bytes as payload instead of an empty payload,
and a response parses back with its payload dropped; uuid and consumed
length are still reproduced there.  Frames whose encoded sequence byte is
the unmasked `lastSequenceNumber` (success responses) additionally require
`0 ≤ seq ≤ 255`, and every shape requires its payload to fit the 16-bit
length field. -/
theorem C1_round_trip :
    (∀ (f : DirconPacket) (seq : Int),
      f.Identifier = DPKT_MSGID_DISCOVER_SERVICES → f.isRequest = true →
      f.ResponseCode = DPKT_RESPCODE_SUCCESS_REQUEST →
      f.uuids = [] → f.additional_data = [] →
      (f.encode seq).isSome = true ∧
      (DirconPacket.parse DirconPacket.init (encodeBytes f seq) seq).1 =
        ((encodeBytes f seq).length : Int) ∧
      (DirconPacket.parse DirconPacket.init (encodeBytes f seq) seq).2.uuids = f.uuids ∧
      (DirconPacket.parse DirconPacket.init (encodeBytes f seq) seq).2.additional_data =
        f.additional_data) ∧
    (∀ (f : DirconPacket) (seq : Int),
      f.Identifier = DPKT_MSGID_DISCOVER_SERVICES → f.isRequest = false →
      f.ResponseCode = DPKT_RESPCODE_SUCCESS_REQUEST →
      (∀ u ∈ f.uuids, u < 65536) → f.uuids.length * 16 < 65536 →
      0 ≤ seq → seq ≤ 255 →
      (f.encode seq).isSome = true ∧
      (DirconPacket.parse DirconPacket.init (encodeBytes f seq) seq).1 =
        ((encodeBytes f seq).length : Int) ∧
      (DirconPacket.parse DirconPacket.init (encodeBytes f seq) seq).2.uuids = f.uuids) ∧
    (∀ (f : DirconPacket) (seq : Int),
      f.Identifier = DPKT_MSGID_DISCOVER_CHARACTERISTICS → f.isRequest = true →
      f.ResponseCode = DPKT_RESPCODE_SUCCESS_REQUEST → f.uuid < 65536 →
      (f.encode seq).isSome = true ∧
      (DirconPacket.parse DirconPacket.init (encodeBytes f seq) seq).1 =
        ((encodeBytes f seq).length : Int) ∧
      (DirconPacket.parse DirconPacket.init (encodeBytes f seq) seq).2.uuid = f.uuid) ∧
    (∀ (f : DirconPacket) (seq : Int),
      f.Identifier = DPKT_MSGID_DISCOVER_CHARACTERISTICS → f.isRequest = false →
      f.ResponseCode = DPKT_RESPCODE_SUCCESS_REQUEST → f.uuid < 65536 →
      (∀ u ∈ f.uuids, u < 65536) → f.additional_data.length = f.uuids.length →
      16 + f.uuids.length * 17 < 65536 → 0 ≤ seq → seq ≤ 255 →
      (f.encode seq).isSome = true ∧
      (DirconPacket.parse DirconPacket.init (encodeBytes f seq) seq).1 =
        ((encodeBytes f seq).length : Int) ∧
      (DirconPacket.parse DirconPacket.init (encodeBytes f seq) seq).2.uuid = f.uuid ∧
      (DirconPacket.parse DirconPacket.init (encodeBytes f seq) seq).2.uuids = f.uuids ∧
      (DirconPacket.parse DirconPacket.init (encodeBytes f seq) seq).2.additional_data =
        f.additional_data) ∧
    (∀ (f : DirconPacket) (seq : Int),
      f.Identifier = DPKT_MSGID_READ_CHARACTERISTIC → f.isRequest = true →
      f.ResponseCode = DPKT_RESPCODE_SUCCESS_REQUEST → f.uuid < 65536 →
      (f.encode seq).isSome = true ∧
      (DirconPacket.parse DirconPacket.init (encodeBytes f seq) seq).1 =
        ((encodeBytes f seq).length : Int) ∧
      (DirconPacket.parse DirconPacket.init (encodeBytes f seq) seq).2.uuid = f.uuid ∧
      (DirconPacket.parse DirconPacket.init (encodeBytes f seq) seq).2.additional_data =
        [0x00, 0x00, 0x10, 0x00, 0x80, 0x00, 0x00, 0x80, 0x5F, 0x9B, 0x34, 0xFB]) ∧
    (∀ (f : DirconPacket) (seq : Int),
      f.Identifier = DPKT_MSGID_READ_CHARACTERISTIC → f.isRequest = false →
      f.ResponseCode = DPKT_RESPCODE_SUCCESS_REQUEST → f.uuid < 65536 →
      f.additional_data ≠ [] → 16 + f.additional_data.length < 65536 →
      0 ≤ seq → seq ≤ 255 →
      (f.encode seq).isSome = true ∧
      (DirconPacket.parse DirconPacket.init (encodeBytes f seq) seq).1 =
        ((encodeBytes f seq).length : Int) ∧
      (DirconPacket.parse DirconPacket.init (encodeBytes f seq) seq).2.uuid = f.uuid ∧
      (DirconPacket.parse DirconPacket.init (encodeBytes f seq) seq).2.additional_data =
        []) ∧
    (∀ (f : DirconPacket) (seq : Int),
      f.Identifier = DPKT_MSGID_WRITE_CHARACTERISTIC → f.isRequest = true →
      f.ResponseCode = DPKT_RESPCODE_SUCCESS_REQUEST → f.uuid < 65536 →
      f.additional_data ≠ [] → 16 + f.additional_data.length < 65536 →
      (f.encode seq).isSome = true ∧
      (DirconPacket.parse DirconPacket.init (encodeBytes f seq) seq).1 =
        ((encodeBytes f seq).length : Int) ∧
      (DirconPacket.parse DirconPacket.init (encodeBytes f seq) seq).2.uuid = f.uuid ∧
      (DirconPacket.parse DirconPacket.init (encodeBytes f seq) seq).2.additional_data =
        f.additional_data) ∧
    (∀ (f : DirconPacket) (seq : Int),
      f.Identifier = DPKT_MSGID_ENABLE_CHARACTERISTIC_NOTIFICATIONS → f.isRequest = true →
      f.ResponseCode = DPKT_RESPCODE_SUCCESS_REQUEST → f.uuid < 65536 →
      f.additional_data.length = 1 →
      (f.encode seq).isSome = true ∧
      (DirconPacket.parse DirconPacket.init (encodeBytes f seq) seq).1 =
        ((encodeBytes f seq).length : Int) ∧
      (DirconPacket.parse DirconPacket.init (encodeBytes f seq) seq).2.uuid = f.uuid ∧
      (DirconPacket.parse DirconPacket.init (encodeBytes f seq) seq).2.additional_data =
        f.additional_data) ∧
    (∀ (f : DirconPacket) (seq : Int),
      f.Identifier = DPKT_MSGID_ENABLE_CHARACTERISTIC_NOTIFICATIONS → f.isRequest = false →
      f.ResponseCode = DPKT_RESPCODE_SUCCESS_REQUEST → f.uuid < 65536 →
      f.additional_data = [] → 0 ≤ seq → seq ≤ 255 →
      (f.encode seq).isSome = true ∧
      (DirconPacket.parse DirconPacket.init (encodeBytes f seq) seq).1 =
        ((encodeBytes f seq).length : Int) ∧
      (DirconPacket.parse DirconPacket.init (encodeBytes f seq) seq).2.uuid = f.uuid ∧
      (DirconPacket.parse DirconPacket.init (encodeBytes f seq) seq).2.additional_data =
        f.additional_data) ∧
    (∀ (f : DirconPacket) (seq : Int),
      f.Identifier = DPKT_MSGID_UNSOLICITED_CHARACTERISTIC_NOTIFICATION →
      f.isRequest = false →
      f.ResponseCode = DPKT_RESPCODE_SUCCESS_REQUEST → f.uuid < 65536 →
      f.additional_data ≠ [] → 16 + f.additional_data.length < 65536 →
      (f.encode seq).isSome = true ∧
      (DirconPacket.parse DirconPacket.init (encodeBytes f seq) seq).1 =
        ((encodeBytes f seq).length : Int) ∧
      (DirconPacket.parse DirconPacket.init (encodeBytes f seq) seq).2.uuid = f.uuid ∧
      (DirconPacket.parse DirconPacket.init (encodeBytes f seq) seq).2.additional_data =
        f.additional_data) :=
  ⟨rt_dsReq, rt_dsResp, rt_dcReq, rt_dcResp, rt_readReq, rt_readResp, rt_wc, rt_enReq,
   rt_enResp, rt_un⟩

/-- The spec's concrete scenario: a DiscoverServices response carrying the
short codes 0x1826 and 0x1818. -/
def dsRespFrame : DirconPacket :=
  { DirconPacket.init with
    Identifier := DPKT_MSGID_DISCOVER_SERVICES
    uuids := [0x1826, 0x1818] }

/-- Witness for C1 (amended): the DiscoverServices response above encodes to
a 38-byte frame that parses back to the same uuid list. -/
theorem C1_round_trip_witness :
    (dsRespFrame.encode 1).isSome = true ∧
    (DirconPacket.parse DirconPacket.init (encodeBytes dsRespFrame 1) 1).1 =
      ((encodeBytes dsRespFrame 1).length : Int) ∧
    (DirconPacket.parse DirconPacket.init (encodeBytes dsRespFrame 1) 1).2.uuids =
      dsRespFrame.uuids :=
  C1_round_trip.2.1 dsRespFrame 1 rfl rfl rfl (by decide) (by decide) (by decide) (by decide)


end KickrToGamepad
